import Mathlib

/-!
# numpy array / cv::Mat bridge (`src/vocl/pyocv.cpp`)

A shallow embedding of the `Mat` converter of `pyocv.cpp`: the bridge allocator
`NumpyAllocator` (both `allocate` overloads and `deallocate`), the inbound converter
`pyopencv_to(PyObject*, Mat&, const ArgInfo)` and the outbound converter
`pyopencv_from(const Mat&)`.

Conventions of the embedding.

* The interpreter heap is a list of objects; a `PyObject*` is `PyRef`: `NULL`, the
  singleton `Py_None`, or the index of an object of the heap.  A new object is
  appended, so its index is the length of the heap before the call.  Dropping the
  last reference is shown by the counter alone; indices are never reused.
* C integers are `Int`/`Nat` with the narrowing casts of the source written out
  (`toInt32` for `(int)`, `toSizeT` for `(size_t)`); a statement that depends on the 64-bit
  range of an `npy_intp` value says so (`isIntp`).
* A C `double` is kept symbolic (`CDouble`).
* numpy and OpenCV are libraries outside the repository.  Their enum values and macros
  are written down from their headers; the buffer address and strides numpy picks for
  an array it builds are a parameter (`Numpy`); `cv::Mat` is shown by the header fields
  its constructors store, without OpenCV's own argument validation and without the
  release of what a matrix held before it is assigned to.  `PyArray_SimpleNew`, whose
  failure the source tests, may fail (`Numpy.simpleNew` gives `none`); the calls whose
  result the source uses untested (`PyArray_Cast`, `PyArray_GETCONTIGUOUS`, the blocks
  of OpenCV's default allocator) are taken to succeed.
* The contents of foreign buffers are not shown; a copy between two buffers is recorded
  by the pair of their pointers.
-/

namespace Vocl

/-! ## Machine integers -/

/-- The cast `(int)x` of a wider signed integer: two's complement wrap to 32 bits. -/
def toInt32 (x : Int) : Int := (x + 2147483648) % 4294967296 - 2147483648

/-- The cast `(size_t)x` on a 64-bit target. -/
def toSizeT (x : Int) : Nat := (x % 18446744073709551616).toNat

/-- Range of `npy_intp` (a signed 64-bit integer). -/
def isIntp (x : Int) : Prop := -9223372036854775808 ≤ x ∧ x < 9223372036854775808

instance (x : Int) : Decidable (isIntp x) := by unfold isIntp; infer_instance

/-! ## numpy type numbers (`enum NPY_TYPES`) -/

def NPY_BOOL : Int := 0
def NPY_BYTE : Int := 1
def NPY_UBYTE : Int := 2
def NPY_SHORT : Int := 3
def NPY_USHORT : Int := 4
def NPY_INT : Int := 5
def NPY_UINT : Int := 6
def NPY_LONG : Int := 7
def NPY_ULONG : Int := 8
def NPY_LONGLONG : Int := 9
def NPY_ULONGLONG : Int := 10
def NPY_FLOAT : Int := 11
def NPY_DOUBLE : Int := 12

/-- The C data model numpy was built for: it fixes which type numbers the sized aliases
`NPY_INT32`, `NPY_INT64`, `NPY_UINT64` of `npy_common.h` stand for (`long` is tried first,
then `long long`, then `int`). -/
inductive DataModel
  | lp64   -- 64-bit `long` (Linux, macOS)
  | llp64  -- 32-bit `long`, 64-bit `long long` (Windows)
  deriving DecidableEq, Repr

def NPY_INT32 : DataModel → Int
  | .lp64 => NPY_INT
  | .llp64 => NPY_LONG

def NPY_INT64 : DataModel → Int
  | .lp64 => NPY_LONG
  | .llp64 => NPY_LONGLONG

def NPY_UINT64 : DataModel → Int
  | .lp64 => NPY_ULONG
  | .llp64 => NPY_ULONGLONG

/-- Whether a type number names a 64-bit integer type under the data model. -/
def is64BitInteger (dm : DataModel) (typenum : Int) : Bool :=
  typenum == NPY_LONGLONG || typenum == NPY_ULONGLONG ||
    (dm == .lp64 && (typenum == NPY_LONG || typenum == NPY_ULONG))

/-! ## OpenCV type codes (`opencv2/core/hal/interface.h`, `cvdef.h`) -/

def CV_8U : Int := 0
def CV_8S : Int := 1
def CV_16U : Int := 2
def CV_16S : Int := 3
def CV_32S : Int := 4
def CV_32F : Int := 5
def CV_64F : Int := 6

def CV_CN_MAX : Int := 512
def CV_CN_SHIFT : Nat := 3

/-- The value the source gives `CV_MAX_DIM` (lines 237-239), which is also OpenCV's. -/
def CV_MAX_DIM : Nat := 32

/-- Macro `CV_MAT_DEPTH(flags) = flags & 7`. -/
def CV_MAT_DEPTH (flags : Int) : Int := flags % 8

/-- Macro `CV_MAT_CN(flags) = ((flags & ((CV_CN_MAX - 1) << CV_CN_SHIFT)) >> CV_CN_SHIFT) + 1`. -/
def CV_MAT_CN (flags : Int) : Int := flags / 8 % 512 + 1

/-- Macro `CV_MAT_TYPE(flags) = flags & (CV_DEPTH_MAX*CV_CN_MAX - 1)`. -/
def CV_MAT_TYPE (flags : Int) : Int := flags % 4096

/-- Macro `CV_MAKETYPE(depth, cn) = CV_MAT_DEPTH(depth) + ((cn - 1) << CV_CN_SHIFT)`. -/
def CV_MAKETYPE (depth cn : Int) : Int := CV_MAT_DEPTH depth + (cn - 1) * 8

/-- Macro `CV_ELEM_SIZE1(type)`: bytes of one channel, by depth (1, 1, 2, 2, 4, 4, 8 and
`sizeof(size_t)` for the user depth 7). -/
def CV_ELEM_SIZE1 (type : Int) : Nat :=
  if CV_MAT_DEPTH type = 0 ∨ CV_MAT_DEPTH type = 1 then 1
  else if CV_MAT_DEPTH type = 2 ∨ CV_MAT_DEPTH type = 3 then 2
  else if CV_MAT_DEPTH type = 4 ∨ CV_MAT_DEPTH type = 5 then 4
  else 8

/-- Macro `CV_ELEM_SIZE(type)`: bytes of one element, channel count times channel size. -/
def CV_ELEM_SIZE (type : Int) : Nat := (CV_MAT_CN type).toNat * CV_ELEM_SIZE1 type

/-! ## Python objects -/

/-- A C `double`, kept symbolic: the conversion `(double)v` of a C `long`, a value given by
its bit pattern (`0.` is `bits 0`), or the content of memory that was never written. -/
inductive CDouble
  | ofLong (v : Int)
  | bits (b : Nat)
  | uninit
  deriving DecidableEq, Repr

/-- The fields of a `PyArrayObject` the bridge reads: `PyArray_TYPE`, `PyArray_DIMS`
(whose length is `PyArray_NDIM`), `PyArray_STRIDES`, `PyArray_DATA` (0 is `NULL`) and the
flag `NPY_ARRAY_C_CONTIGUOUS` that `PyArray_ISCONTIGUOUS` tests. -/
structure NpyArray where
  typenum : Int
  dims : List Int
  strides : List Int
  data : Nat
  c_contiguous : Bool
  deriving DecidableEq, Repr

/-- What an object is, as far as `PyInt_Check`, `PyFloat_Check`, `PyTuple_Check` and
`PyArray_Check` tell.  An `int` holds an integer of any size: `pycompat.hpp` maps
`PyInt_Check` and `PyInt_AsLong` to `PyLong_Check` and `PyLong_AsLong` on Python 3 (on
Python 2 the value of an `int` always fits a C `long`).  A tuple holds pointers to its
items. -/
inductive PyVal
  | int (v : Int)
  | float (d : CDouble)
  | tuple (items : List Nat)
  | ndarray (a : NpyArray)
  | other
  deriving DecidableEq, Repr

structure PyObject where
  ob_refcnt : Int
  val : PyVal
  deriving DecidableEq, Repr

abbrev PyHeap := List PyObject

/-- A `PyObject*`. -/
inductive PyRef
  | null
  | none
  | obj (id : Nat)
  deriving DecidableEq, Repr

/-- The object a pointer designates; a pointer to nothing reads as an object of no
recognised type. -/
def PyHeap.val (h : PyHeap) (id : Nat) : PyVal :=
  match h[id]? with
  | some ob => ob.val
  | Option.none => PyVal.other

/-- The reference count of the object `id` (0 when there is no such object). -/
def PyHeap.refcnt (h : PyHeap) (id : Nat) : Int :=
  match h[id]? with
  | some ob => ob.ob_refcnt
  | Option.none => 0

def Py_INCREF (h : PyHeap) (id : Nat) : PyHeap :=
  h.modify (fun ob => { ob with ob_refcnt := ob.ob_refcnt + 1 }) id

def Py_DECREF (h : PyHeap) (id : Nat) : PyHeap :=
  h.modify (fun ob => { ob with ob_refcnt := ob.ob_refcnt - 1 }) id

/-- Macro `Py_XDECREF(o)` for `o` read from a `void*` slot: nothing happens on `NULL`. -/
def Py_XDECREF (h : PyHeap) (o : Option Nat) : PyHeap :=
  match o with
  | some id => Py_DECREF h id
  | Option.none => h

/-! ## numpy as a library -/

/-- The choices numpy makes when it builds an array: the buffer address, the strides and
the contiguity flag. -/
structure NpyLayout where
  data : Nat
  strides : List Int
  c_contiguous : Bool
  deriving DecidableEq, Repr

/-- The numpy build the bridge is linked against: its C data model and the layout it
gives the arrays built by `PyArray_SimpleNew(nd, dims, typenum)`, `PyArray_Copy(a)` and
`PyArray_Cast(a, typenum)`, each in the heap state of the call.  `simpleNew` gives `none`
when `PyArray_SimpleNew` cannot make the array and returns `NULL`. -/
structure Numpy where
  dataModel : DataModel
  simpleNew : PyHeap → List Int → Int → Option NpyLayout
  copy : PyHeap → NpyArray → NpyLayout
  cast : PyHeap → NpyArray → Int → NpyLayout

/-- Put a new object with one reference on the heap; its pointer is the old length. -/
def PyHeap.alloc (h : PyHeap) (v : PyVal) : PyHeap × Nat :=
  (h ++ [{ ob_refcnt := 1, val := v }], h.length)

def NpyLayout.toArray (l : NpyLayout) (typenum : Int) (dims : List Int) : NpyArray :=
  { typenum := typenum, dims := dims, strides := l.strides, data := l.data,
    c_contiguous := l.c_contiguous }

/-- Call `PyArray_SimpleNew(nd, dims, typenum)`: a new array of that type and shape, or
`none` for the `NULL` it returns when the array cannot be made. -/
def PyArray_SimpleNew (np : Numpy) (h : PyHeap) (dims : List Int) (typenum : Int) :
    Option (PyHeap × Nat × NpyArray) :=
  match np.simpleNew h dims typenum with
  | some l => some ((h.alloc (PyVal.ndarray (l.toArray typenum dims))).1, h.length,
      l.toArray typenum dims)
  | Option.none => Option.none

/-- Call `PyArray_Cast(a, typenum)`: a new array of the same shape and the given type. -/
def PyArray_Cast (np : Numpy) (h : PyHeap) (a : NpyArray) (typenum : Int) :
    PyHeap × Nat × NpyArray :=
  let b := (np.cast h a typenum).toArray typenum a.dims
  ((h.alloc (PyVal.ndarray b)).1, h.length, b)

/-- Macro `PyArray_GETCONTIGUOUS(m)`, numpy's macro
`PyArray_ISCONTIGUOUS(m) ? Py_INCREF(m), m : PyArray_Copy(m)`: the array itself with one
more reference when its C-contiguous flag is set, else a new copy of the same type and
shape. -/
def PyArray_GETCONTIGUOUS (np : Numpy) (h : PyHeap) (o : Nat) (a : NpyArray) :
    PyHeap × Nat × NpyArray :=
  if a.c_contiguous then (Py_INCREF h o, o, a)
  else
    let b := (np.copy h a).toArray a.typenum a.dims
    ((h.alloc (PyVal.ndarray b)).1, h.length, b)

/-! ## cv::Mat and its ownership token -/

/-- The two `MatAllocator` objects in play: OpenCV's default one and `g_numpyAllocator`. -/
inductive Allocator
  | std
  | numpy
  deriving DecidableEq, Repr

/-- A `uchar*`: an address (0 is `NULL`; addresses of foreign buffers are those numpy
reports), or a block from OpenCV's default allocator shown by the doubles it holds. -/
inductive MatData
  | ptr (addr : Nat)
  | owned (vals : List CDouble)
  deriving DecidableEq, Repr

def MatData.isNull : MatData → Bool
  | .ptr addr => addr == 0
  | .owned _ => false

/-- Structure `UMatData`, the ownership token.  `userdata` is a `void*` slot (`none` is `NULL`) that
the bridge fills with the `PyObject*` it got; `new UMatData(this)` zeroes everything else. -/
structure UMatData where
  currAllocator : Allocator
  data : MatData
  origdata : MatData
  size : Nat
  userdata : Option Nat
  refcount : Int
  deriving DecidableEq, Repr

/-- A `cv::Mat` header. `type` is what `Mat::type()` returns; `allocator` is `none` for
the null allocator pointer of a default-constructed matrix. -/
structure Mat where
  dims : Int
  sizes : List Int
  type : Int
  data : MatData
  step : List Nat
  u : Option UMatData
  allocator : Option Allocator
  deriving DecidableEq, Repr

/-- Constructor `Mat()`. -/
def Mat.empty : Mat :=
  { dims := 0, sizes := [], type := 0, data := .ptr 0, step := [], u := Option.none,
    allocator := Option.none }

/-- Constructor `Mat(ndims, sizes, type, data, steps)`: a header over memory the matrix does not own. -/
def Mat.header (ndims : Int) (sizes : List Int) (type : Int) (data : Nat) (steps : List Nat) :
    Mat :=
  { dims := ndims, sizes := sizes.take ndims.toNat, type := CV_MAT_TYPE type,
    data := .ptr data, step := steps.take ndims.toNat, u := Option.none,
    allocator := Option.none }

/-- A `rows x 1` matrix of doubles in a block of the default allocator holding `vals`
(`Mat(rows, 1, CV_64F)`, and `Mat(rows, 1, CV_64F, v).clone()`); without elements no block is
taken and the data pointer stays null. -/
def Mat.column (rows : Int) (vals : List CDouble) : Mat :=
  if vals = [] then
    { dims := 2, sizes := [rows, 1], type := CV_64F, data := .ptr 0, step := [8, 8],
      u := Option.none, allocator := Option.none }
  else
    { dims := 2, sizes := [rows, 1], type := CV_64F, data := .owned vals, step := [8, 8],
      u := some { currAllocator := .std, data := .owned vals, origdata := .owned vals,
                  size := 8 * vals.length, userdata := Option.none, refcount := 1 },
      allocator := Option.none }

/-- Statement `m.at<double>(i) = x` on a matrix that owns its block. -/
def Mat.setAt (m : Mat) (i : Nat) (x : CDouble) : Mat :=
  match m.data with
  | .owned vals =>
    { m with data := .owned (vals.set i x),
             u := m.u.map (fun u => { u with data := .owned (vals.set i x),
                                             origdata := .owned (vals.set i x) }) }
  | .ptr _ => m

/-- Statement `m.release()` of a matrix whose block came from the default allocator: the token is
dropped, the data pointer nulled and every size zeroed. -/
def Mat.release (m : Mat) : Mat :=
  { m with u := Option.none, data := .ptr 0, sizes := m.sizes.map (fun _ => 0) }

/-- Statement `m.addref()`. -/
def Mat.addref (m : Mat) : Mat :=
  { m with u := m.u.map (fun u => { u with refcount := u.refcount + 1 }) }

/-! ## Errors -/

inductive FmtArg
  | str (s : String)
  | int (n : Int)
  deriving DecidableEq, Repr

/-- The `TypeError` that `failmsg(fmt, ...)` raises, kept as the format and its arguments
(the text is their `vsnprintf` rendering into a 1000-byte buffer). -/
structure TypeError where
  fmt : String
  args : List FmtArg
  deriving DecidableEq, Repr

/-- The error the interpreter holds as pending: a `TypeError` set by `failmsg`, or the
`OverflowError` that `PyInt_AsLong` sets when an int does not fit a C `long`. -/
inductive PyErr
  | typeError (e : TypeError)
  | overflowError
  deriving DecidableEq, Repr

def failmsg (fmt : String) (args : List FmtArg) : PyErr :=
  .typeError { fmt := fmt, args := args }

/-- Range of a C `long`: 64 bits on LP64, 32 bits on LLP64. -/
def isLong (dm : DataModel) (v : Int) : Prop :=
  match dm with
  | .lp64 => -9223372036854775808 ≤ v ∧ v < 9223372036854775808
  | .llp64 => -2147483648 ≤ v ∧ v < 2147483648

instance (dm : DataModel) (v : Int) : Decidable (isLong dm v) := by
  unfold isLong
  cases dm <;> infer_instance

/-- The value `PyInt_AsLong` returns for an int of value `v`: the value itself when it fits
a C `long`, else -1. -/
def PyInt_AsLong (dm : DataModel) (v : Int) : Int := if isLong dm v then v else -1

/-- The pending error after `PyInt_AsLong` on an int of value `v`, from the error `e` that
was pending before: an `OverflowError` replaces it when `v` does not fit. -/
def PyInt_AsLong_err (dm : DataModel) (v : Int) (e : Option PyErr) : Option PyErr :=
  if isLong dm v then e else some .overflowError

/-- The argument descriptor of `pyocv.hpp`. -/
structure ArgInfo where
  name : String
  outputarg : Bool
  deriving DecidableEq, Repr

/-! ## The bridge allocator (lines 76-143) -/

/-- The loop `for (i = 0; i < n; i++) step[i] = (size_t)_strides[i];` of line 87. -/
def NumpyAllocator.copySteps (strides : List Int) : Nat → List Nat → List Nat
  | 0, step => step
  | n + 1, step => (copySteps strides n step).set n (toSizeT (strides.getD n 0))

/-- Function `NumpyAllocator::allocate(PyObject* o, int dims, const int* sizes, int type,
size_t* step)` (lines 82-93), `oarr` being the array `o` points to.  It returns the token and the `step`
array as it leaves it.  With `dims < 1` the C code writes before the start of `step`;
the embedding then leaves `step` as it is. -/
def NumpyAllocator.allocate (o : Nat) (oarr : NpyArray) (dims : Int) (sizes : List Int)
    (type : Int) (step : List Nat) : UMatData × List Nat :=
  let step1 := NumpyAllocator.copySteps oarr.strides (dims - 1).toNat step
  let step2 := if 1 ≤ dims then step1.set (dims - 1).toNat (CV_ELEM_SIZE type) else step1
  ({ currAllocator := .numpy, data := .ptr oarr.data, origdata := .ptr oarr.data,
     size := toSizeT (sizes.getD 0 0) * step2.getD 0 0 % 18446744073709551616,
     userdata := some o, refcount := 0 }, step2)

/-- A `cv::Exception` raised by `CV_Error`. -/
inductive CvException
  | StsAssert (msg : String)
  | StsError (fmt : String) (args : List FmtArg)
  deriving DecidableEq, Repr

/-- The numpy type number chosen for a depth (lines 108-111); `sizeof(size_t)` is 8, so the
fallback `f*NPY_ULONGLONG + (f^1)*NPY_UINT` is `NPY_ULONGLONG`. -/
def depthToTypenum (depth : Int) : Int :=
  if depth = CV_8U then NPY_UBYTE else if depth = CV_8S then NPY_BYTE
  else if depth = CV_16U then NPY_USHORT else if depth = CV_16S then NPY_SHORT
  else if depth = CV_32S then NPY_INT else if depth = CV_32F then NPY_FLOAT
  else if depth = CV_64F then NPY_DOUBLE else NPY_ULONGLONG

/-- Function `NumpyAllocator::allocate(int dims0, const int* sizes, int type, void* data,
size_t* step, int flags, UMatUsageFlags)` (lines 95-122); `data` is the address passed
(0 is `NULL`).  When `PyArray_SimpleNew` returns `NULL` the `CV_Error_` of lines 119-120 is
raised, with the type number and the number of dimensions asked for. -/
def NumpyAllocator.allocateFresh (np : Numpy) (h : PyHeap) (dims0 : Int) (sizes : List Int)
    (type : Int) (data : Nat) (step : List Nat) :
    Except CvException (PyHeap × UMatData × List Nat) :=
  if data ≠ 0 then Except.error (.StsAssert "The data should normally be NULL!")
  else
    let depth := CV_MAT_DEPTH type
    let cn := CV_MAT_CN type
    let typenum := depthToTypenum depth
    let _sizes0 := (List.range dims0.toNat).map (fun i => sizes.getD i 0)
    let _sizes := if cn > 1 then _sizes0 ++ [cn] else _sizes0
    let dims : Int := if cn > 1 then dims0 + 1 else dims0
    match PyArray_SimpleNew np h _sizes typenum with
    | Option.none =>
      Except.error (.StsError "The numpy array of typenum=%d, ndims=%d can not be created"
        [.int typenum, .int dims])
    | some r =>
      Except.ok (r.1, (NumpyAllocator.allocate r.2.1 r.2.2 dims0 sizes type step).1,
        (NumpyAllocator.allocate r.2.1 r.2.2 dims0 sizes type step).2)

/-- Function `NumpyAllocator::deallocate(UMatData* u)` (lines 129-138). -/
def NumpyAllocator.deallocate (h : PyHeap) (u : Option UMatData) : PyHeap :=
  match u with
  | some u => Py_XDECREF h u.userdata
  | Option.none => h

/-! ## Inbound conversion (lines 157-325) -/

/-- What `pyopencv_to` leaves behind: its return value, the matrix `m`, the heap, and the
error left pending (by `failmsg`, or by `PyInt_AsLong`), if any. -/
structure ToResult where
  ret : Bool
  m : Mat
  heap : PyHeap
  err : Option PyErr
  deriving DecidableEq, Repr

/-- The loop of lines 186-199 from index `i` on, with `n` items still to do, the matrix
`m` and the pending error `e`: `true`, the filled matrix and the pending error, or `false`
with the matrix and the error as they were when a non-number was met. -/
def tupleLoop (dm : DataModel) (h : PyHeap) (items : List Nat) :
    Nat → Nat → Mat → Option PyErr → Bool × Mat × Option PyErr
  | 0, _, m, e => (true, m, e)
  | n + 1, i, m, e =>
    match h.val (items.getD i 0) with
    | .int v =>
      tupleLoop dm h items n (i + 1) (m.setAt i (.ofLong (PyInt_AsLong dm v)))
        (PyInt_AsLong_err dm v e)
    | .float d => tupleLoop dm h items n (i + 1) (m.setAt i d) e
    | _ => (false, m, e)

/-- The table of lines 213-220. -/
def typenumToDepth (dm : DataModel) (typenum : Int) : Int :=
  if typenum = NPY_UBYTE then CV_8U
  else if typenum = NPY_BYTE then CV_8S
  else if typenum = NPY_USHORT then CV_16U
  else if typenum = NPY_SHORT then CV_16S
  else if typenum = NPY_INT then CV_32S
  else if typenum = NPY_INT32 dm then CV_32S
  else if typenum = NPY_FLOAT then CV_32F
  else if typenum = NPY_DOUBLE then CV_64F
  else -1

/-- The outcome of lines 211-235 when the type is accepted. -/
structure Dtype where
  type : Int
  needcast : Bool
  new_typenum : Int
  deriving DecidableEq, Repr

/-- Lines 211-235: the depth for a type number, with the promotion of 64-bit integers;
`none` is the branch that fails with "data type is not supported".  The third test of
line 224 compares `type`, not `typenum`, with `NPY_LONG`. -/
def classifyDtype (dm : DataModel) (typenum : Int) : Option Dtype :=
  let type := typenumToDepth dm typenum
  if type < 0 then
    if typenum = NPY_INT64 dm ∨ typenum = NPY_UINT64 dm ∨ type = NPY_LONG then
      some { type := CV_32S, needcast := true, new_typenum := NPY_INT }
    else Option.none
  else some { type := type, needcast := false, new_typenum := typenum }

/-- The loop of lines 255-264, started with `n = ndims` and run down from `i = n - 1`;
the flag stops it as soon as it is set. -/
def needcopyLoop (strides : List Int) (ndims : Nat) (elemsize : Nat) : Nat → Bool → Bool
  | 0, needcopy => needcopy
  | i + 1, needcopy =>
    if needcopy then needcopy
    else needcopyLoop strides ndims elemsize i
      ((i + 1 = ndims ∧ toSizeT (strides.getD i 0) ≠ elemsize) ∨
        (i + 1 < ndims ∧ strides.getD i 0 < strides.getD (i + 1) 0))

/-- Line 253. -/
def ismultichannel (a : NpyArray) : Bool := a.dims.length = 3 ∧ a.dims.getD 2 0 ≤ CV_CN_MAX

/-- The flag `needcopy` as lines 253-267 leave it, from its value after the type test. -/
def needcopy (a : NpyArray) (elemsize : Nat) (needcast : Bool) : Bool :=
  let nc := needcopyLoop a.strides a.dims.length elemsize a.dims.length needcast
  if ismultichannel a ∧ a.strides.getD 1 0 ≠ (elemsize : Int) * a.dims.getD 2 0 then true else nc

/-- The array the matrix is built over (lines 277-284): heap after the call, pointer and
fields of the array. -/
def resolve (np : Numpy) (h : PyHeap) (o : Nat) (a : NpyArray) (nc : Bool) (dt : Dtype) :
    PyHeap × Nat × NpyArray :=
  if nc then
    if dt.needcast then PyArray_Cast np h a dt.new_typenum
    else PyArray_GETCONTIGUOUS np h o a
  else (h, o, a)

/-- Lines 209-325: `o` points to the array `a`. -/
def arrayTo (np : Numpy) (h : PyHeap) (o : Nat) (a : NpyArray) (m : Mat) (info : ArgInfo) :
    ToResult :=
  let allowND := true
  match classifyDtype np.dataModel a.typenum with
  | Option.none =>
    { ret := false, m := m, heap := h,
      err := some (failmsg "%s data type = %d is not supported"
        [.str info.name, .int a.typenum]) }
  | some dt =>
    let ndims := a.dims.length
    if CV_MAX_DIM ≤ ndims then
      { ret := false, m := m, heap := h,
        err := some (failmsg "%s dimensionality (=%d) is too high"
          [.str info.name, .int ndims]) }
    else
      let elemsize := CV_ELEM_SIZE1 dt.type
      let nc := needcopy a elemsize dt.needcast
      if nc ∧ info.outputarg then
        { ret := false, m := m, heap := h,
          err := some (failmsg "Layout of the output array %s is incompatible with cv::Mat (step[ndims-1] != elemsize or step[1] != elemsize*nchannels)"
            [.str info.name]) }
      else
        let r := resolve np h o a nc dt
        let size0 := (List.range ndims).map (fun i => toInt32 (a.dims.getD i 0))
        let step0 := (List.range ndims).map (fun i => toSizeT (r.2.2.strides.getD i 0))
        let size := if ndims = 0 then [1] else size0
        let step := if ndims = 0 then [elemsize] else step0
        let ndims1 : Int := if ndims = 0 then 1 else ndims
        let ndims2 : Int := if ismultichannel a then ndims1 - 1 else ndims1
        let type := if ismultichannel a then Int.lor dt.type (CV_MAKETYPE 0 (size.getD 2 0))
                    else dt.type
        if ndims2 > 2 ∧ ¬ allowND then
          { ret := false, m := m, heap := h,
            err := some (failmsg "%s has more than 2 dimensions" [.str info.name]) }
        else
          let m1 := Mat.header ndims2 size type r.2.2.data step
          let ut := NumpyAllocator.allocate r.2.1 r.2.2 ndims2 size type step
          let m2 := ({ m1 with u := some ut.1 } : Mat).addref
          let h2 := if nc then r.1 else Py_INCREF r.1 r.2.1
          { ret := true, m := { m2 with allocator := some .numpy }, heap := h2,
            err := Option.none }

/-- Function `bool pyopencv_to(PyObject* o, Mat& m, const ArgInfo info)` (lines 157-325),
run on the heap `h` with `m` as the caller passes it. -/
def pyopencv_to (np : Numpy) (h : PyHeap) (o : PyRef) (m : Mat) (info : ArgInfo) : ToResult :=
  match o with
  | .null | .none =>
    { ret := true, m := if m.data.isNull then { m with allocator := some .numpy } else m,
      heap := h, err := Option.none }
  | .obj id =>
    match h.val id with
    | .int v =>
      { ret := true,
        m := Mat.column 4 [.ofLong (PyInt_AsLong np.dataModel v), .bits 0, .bits 0, .bits 0],
        heap := h, err := PyInt_AsLong_err np.dataModel v Option.none }
    | .float d =>
      { ret := true, m := Mat.column 4 [d, .bits 0, .bits 0, .bits 0], heap := h,
        err := Option.none }
    | .tuple items =>
      let sz := toInt32 items.length
      let r := tupleLoop np.dataModel h items sz.toNat 0 (Mat.column sz (List.replicate sz.toNat .uninit))
        Option.none
      if r.1 then { ret := true, m := r.2.1, heap := h, err := r.2.2 }
      else
        { ret := false, m := r.2.1.release, heap := h,
          err := some (failmsg "%s is not a numerical tuple" [.str info.name]) }
    | .other =>
      { ret := false, m := m, heap := h,
        err := some (failmsg "%s is not a numpy array, neither a scalar" [.str info.name]) }
    | .ndarray a => arrayTo np h id a m info

/-! ## Outbound conversion (lines 327-342) -/

/-- What `pyopencv_from` leaves behind: the pointer it returns, the heap at the `return`
statement (`atReturn`, the local `temp` still alive), the heap once `temp` is destroyed,
the `cv::Exception` that `ERRWRAP2` turned into an error, if any, and the copy
`m.copyTo(temp)` made, if any, as the pair of the buffer read and the buffer written. -/
structure FromResult where
  ret : PyRef
  atReturn : PyHeap
  heap : PyHeap
  err : Option CvException
  copied : Option (MatData × MatData)
  deriving DecidableEq, Repr

/-- Function `PyObject* pyopencv_from(const Mat& m)` (lines 327-342).  `m.copyTo(temp)` with
`temp.allocator = &g_numpyAllocator` creates `temp` with the dimensions, sizes and type of
`m` through `NumpyAllocator::allocate(dims, sizes, type, 0, step, ...)` and copies the
elements of `m` into its buffer; an exception of that allocation is caught by `ERRWRAP2`,
which returns `NULL`; `temp` is destroyed on return, which releases its token through
`NumpyAllocator::deallocate`. -/
def pyopencv_from (np : Numpy) (h : PyHeap) (m : Mat) : FromResult :=
  if m.data.isNull then
    { ret := .none, atReturn := h, heap := h, err := Option.none, copied := Option.none }
  else if m.u = Option.none ∨ m.allocator ≠ some .numpy then
    match NumpyAllocator.allocateFresh np h m.dims m.sizes m.type 0 m.step with
    | .error e =>
      { ret := .null, atReturn := h, heap := h, err := some e, copied := Option.none }
    | .ok (h1, u, _) =>
      match u.userdata with
      | some o =>
        { ret := .obj o, atReturn := Py_INCREF h1 o,
          heap := NumpyAllocator.deallocate (Py_INCREF h1 o) (some u), err := Option.none,
          copied := some (m.data, u.data) }
      | Option.none =>
        { ret := .null, atReturn := h1, heap := h1, err := Option.none,
          copied := some (m.data, u.data) }
  else
    match m.u with
    | some u =>
      match u.userdata with
      | some o => { ret := .obj o, atReturn := Py_INCREF h o, heap := Py_INCREF h o,
                    err := Option.none, copied := Option.none }
      | Option.none =>
        { ret := .null, atReturn := h, heap := h, err := Option.none, copied := Option.none }
    | Option.none =>
      { ret := .null, atReturn := h, heap := h, err := Option.none, copied := Option.none }

/-! ## A concrete numpy for examples -/

/-- Bytes per item of the numeric type numbers on LP64. -/
def itemsizeLP64 (typenum : Int) : Int :=
  if typenum = NPY_BOOL ∨ typenum = NPY_BYTE ∨ typenum = NPY_UBYTE then 1
  else if typenum = NPY_SHORT ∨ typenum = NPY_USHORT then 2
  else if typenum = NPY_INT ∨ typenum = NPY_UINT ∨ typenum = NPY_FLOAT then 4
  else 8

/-- Row-major strides of a shape (numpy does not multiply by a zero dimension). -/
def cStrides (itemsize : Int) : List Int → List Int
  | [] => []
  | _ :: ds => (ds.map (fun d => if d = 0 then 1 else d)).foldl (· * ·) itemsize
      :: cStrides itemsize ds

/-- An LP64 numpy that builds every array in C order, at an address set by the heap size,
and refuses a shape of more than `NPY_MAXDIMS` = 32 dimensions or with a negative
dimension. -/
def numpyLP64 : Numpy :=
  { dataModel := .lp64,
    simpleNew := fun h dims t =>
      if 32 < dims.length ∨ dims.any (fun d => decide (d < 0)) then Option.none
      else some { data := 4096 * (h.length + 1), strides := cStrides (itemsizeLP64 t) dims,
                  c_contiguous := true },
    copy := fun h a =>
      { data := 4096 * (h.length + 1), strides := cStrides (itemsizeLP64 a.typenum) a.dims,
        c_contiguous := true },
    cast := fun h a t =>
      { data := 4096 * (h.length + 1), strides := cStrides (itemsizeLP64 t) a.dims,
        c_contiguous := true } }

/-! ## Sequences of conversions -/

/-- Convert the same object into a new matrix (`Mat m;`) once per descriptor, in order;
`none` as soon as a conversion returns `false`, else the heap reached and the token each
matrix holds. -/
def convertMany (np : Numpy) (o : Nat) : List ArgInfo → PyHeap →
    Option (PyHeap × List (Option UMatData))
  | [], h => some (h, [])
  | info :: rest, h =>
    if (pyopencv_to np h (.obj o) Mat.empty info).ret then
      match convertMany np o rest (pyopencv_to np h (.obj o) Mat.empty info).heap with
      | some r => some (r.1, (pyopencv_to np h (.obj o) Mat.empty info).m.u :: r.2)
      | Option.none => Option.none
    else Option.none

/-- One `NumpyAllocator::deallocate` per token, in list order. -/
def releaseAll (h : PyHeap) : List (Option UMatData) → PyHeap
  | [] => h
  | u :: us => releaseAll (NumpyAllocator.deallocate h u) us

/-! ## Vocabulary of the statements -/

/-- What the body of the loop of lines 255-264 tests at index `i`. -/
def strideViolation (strides : List Int) (ndims elemsize i : Nat) : Prop :=
  (i + 1 = ndims ∧ toSizeT (strides.getD i 0) ≠ elemsize) ∨
    (i + 1 < ndims ∧ strides.getD i 0 < strides.getD (i + 1) 0)

/-- Whether a token is bound to the object `o`. -/
def boundTo (o : Nat) (u : Option UMatData) : Bool :=
  u.map (fun u => u.userdata) = some (some o)

/-! ## Example objects -/

/-- A C-contiguous 2 x 3 array of unsigned bytes. -/
def exBytes : NpyArray :=
  { typenum := NPY_UBYTE, dims := [2, 3], strides := [3, 1], data := 4096, c_contiguous := true }

/-- Columns 0 and 2 of each row of a 2 x 3 byte array (inner stride 2). -/
def exSliced : NpyArray :=
  { typenum := NPY_UBYTE, dims := [2, 2], strides := [3, 2], data := 4096,
    c_contiguous := false }

def exHeap : PyHeap := [{ ob_refcnt := 1, val := .ndarray exBytes }]

def exSlicedHeap : PyHeap := [{ ob_refcnt := 1, val := .ndarray exSliced }]

def exInput : ArgInfo := { name := "src", outputarg := false }

def exOutput : ArgInfo := { name := "dst", outputarg := true }

/-! ## Reference tables for the dtype classification -/

/-- Whether a type number names a 32-bit signed integer type under the data model. -/
def is32BitSignedInteger (dm : DataModel) (typenum : Int) : Bool :=
  typenum == NPY_INT || (dm == .llp64 && typenum == NPY_LONG)

/-- The reference table in the words of the specification: the seven directly supported
element types by width and signedness, every 64-bit integer type promoted to 32-bit signed,
everything else refused. -/
def classifyDtypeSpec (dm : DataModel) (typenum : Int) : Option Dtype :=
  if typenum = NPY_UBYTE then some { type := CV_8U, needcast := false, new_typenum := typenum }
  else if typenum = NPY_BYTE then
    some { type := CV_8S, needcast := false, new_typenum := typenum }
  else if typenum = NPY_USHORT then
    some { type := CV_16U, needcast := false, new_typenum := typenum }
  else if typenum = NPY_SHORT then
    some { type := CV_16S, needcast := false, new_typenum := typenum }
  else if is32BitSignedInteger dm typenum then
    some { type := CV_32S, needcast := false, new_typenum := typenum }
  else if typenum = NPY_FLOAT then
    some { type := CV_32F, needcast := false, new_typenum := typenum }
  else if typenum = NPY_DOUBLE then
    some { type := CV_64F, needcast := false, new_typenum := typenum }
  else if is64BitInteger dm typenum then
    some { type := CV_32S, needcast := true, new_typenum := NPY_INT }
  else Option.none

/-- The type numbers `NPY_INT64` and `NPY_UINT64` stand for: `NPY_LONG`, `NPY_ULONG` on
LP64 and `NPY_LONGLONG`, `NPY_ULONGLONG` on LLP64. -/
def isInt64Alias (dm : DataModel) (typenum : Int) : Bool :=
  (dm == .lp64 && (typenum == NPY_LONG || typenum == NPY_ULONG)) ||
    (dm == .llp64 && (typenum == NPY_LONGLONG || typenum == NPY_ULONGLONG))

/-- The reference table with the promotion row narrowed to the two type numbers
`NPY_INT64` and `NPY_UINT64` stand for. -/
def classifyDtypeTable (dm : DataModel) (typenum : Int) : Option Dtype :=
  if typenum = NPY_UBYTE then some { type := CV_8U, needcast := false, new_typenum := typenum }
  else if typenum = NPY_BYTE then
    some { type := CV_8S, needcast := false, new_typenum := typenum }
  else if typenum = NPY_USHORT then
    some { type := CV_16U, needcast := false, new_typenum := typenum }
  else if typenum = NPY_SHORT then
    some { type := CV_16S, needcast := false, new_typenum := typenum }
  else if is32BitSignedInteger dm typenum then
    some { type := CV_32S, needcast := false, new_typenum := typenum }
  else if typenum = NPY_FLOAT then
    some { type := CV_32F, needcast := false, new_typenum := typenum }
  else if typenum = NPY_DOUBLE then
    some { type := CV_64F, needcast := false, new_typenum := typenum }
  else if isInt64Alias dm typenum then
    some { type := CV_32S, needcast := true, new_typenum := NPY_INT }
  else Option.none

/-- An array of `long long` items (`np.longlong`, dtype character `q`). -/
def exLongLong : NpyArray :=
  { typenum := NPY_LONGLONG, dims := [2], strides := [8], data := 4096, c_contiguous := true }

def exLongLongHeap : PyHeap := [{ ob_refcnt := 1, val := .ndarray exLongLong }]

/-- An array of unsigned 32-bit integers. -/
def exUInt : NpyArray :=
  { typenum := NPY_UINT, dims := [2], strides := [4], data := 4096, c_contiguous := true }

def exUIntHeap : PyHeap := [{ ob_refcnt := 1, val := .ndarray exUInt }]

/-- A one-element view with a negative stride (`np.arange(5.0)[::-5]`); numpy flags
one-element arrays C-contiguous whatever their strides. -/
def exReversedOne : NpyArray :=
  { typenum := NPY_DOUBLE, dims := [1], strides := [-40], data := 4096, c_contiguous := true }

def exReversedOneHeap : PyHeap := [{ ob_refcnt := 1, val := .ndarray exReversedOne }]

/-- A reversed view of five doubles (`np.arange(5.0)[::-1]`). -/
def exReversed : NpyArray :=
  { typenum := NPY_DOUBLE, dims := [5], strides := [-8], data := 4128, c_contiguous := false }

def exReversedHeap : PyHeap := [{ ob_refcnt := 1, val := .ndarray exReversed }]

/-- A contiguous array of two 64-bit integers (`np.int64` on LP64). -/
def exInt64 : NpyArray :=
  { typenum := NPY_LONG, dims := [2], strides := [8], data := 4096, c_contiguous := true }

def exInt64Heap : PyHeap := [{ ob_refcnt := 1, val := .ndarray exInt64 }]

/-- A C-contiguous 2 x 2 image of three byte channels. -/
def exRGB : NpyArray :=
  { typenum := NPY_UBYTE, dims := [2, 2, 3], strides := [6, 3, 1], data := 4096,
    c_contiguous := true }

def exRGBHeap : PyHeap := [{ ob_refcnt := 1, val := .ndarray exRGB }]

/-- Array `np.zeros((2, 2, 0), np.uint8)`: no elements, trailing axis of length 0. -/
def exNoChannel : NpyArray :=
  { typenum := NPY_UBYTE, dims := [2, 2, 0], strides := [2, 1, 1], data := 4096,
    c_contiguous := true }

def exNoChannelHeap : PyHeap := [{ ob_refcnt := 1, val := .ndarray exNoChannel }]

/-- Array `np.zeros((2**32 + 5, 0, 3), np.uint8)`: no elements, first axis longer than a C `int`
can say. -/
def exTall : NpyArray :=
  { typenum := NPY_UBYTE, dims := [4294967301, 0, 3], strides := [3, 3, 1], data := 4096,
    c_contiguous := true }

def exTallHeap : PyHeap := [{ ob_refcnt := 1, val := .ndarray exTall }]

/-- A one-element byte array of rank 32 (`np.zeros((1,) * 32, np.uint8)`), the highest rank
numpy 1.x allows. -/
def exRank32 : NpyArray :=
  { typenum := NPY_UBYTE, dims := List.replicate 32 1, strides := List.replicate 32 1,
    data := 4096, c_contiguous := true }

def exRank32Heap : PyHeap := [{ ob_refcnt := 1, val := .ndarray exRank32 }]

/-- The double a number stands for as a tuple item (lines 189-192): `(double)v` for an int
`v`, the value of a float; `none` for what is not a number. -/
def itemDouble (h : PyHeap) (id : Nat) : Option CDouble :=
  match h.val id with
  | .int v => some (.ofLong v)
  | .float d => some d
  | _ => Option.none

/-- An object that, if it is an int, has a value in the range of a C `long`. -/
def itemInRange (dm : DataModel) (h : PyHeap) (id : Nat) : Prop :=
  match h.val id with
  | .int v => isLong dm v
  | _ => True

instance (dm : DataModel) (h : PyHeap) (id : Nat) : Decidable (itemInRange dm h id) := by
  unfold itemInRange
  split <;> infer_instance

/-- The element `m.at<double>(i)` of a matrix that owns its block. -/
def Mat.at (m : Mat) (i : Nat) : Option CDouble :=
  match m.data with
  | .owned vals => vals[i]?
  | .ptr _ => Option.none

/-- A heap with the int 7, the float of bit pattern 99, the tuples (7, 99.) and (99., 7),
a string-like object, and the tuple (7, that object). -/
def exScalars : PyHeap :=
  [{ ob_refcnt := 1, val := .int 7 }, { ob_refcnt := 1, val := .float (.bits 99) },
   { ob_refcnt := 1, val := .tuple [0, 1] }, { ob_refcnt := 1, val := .tuple [1, 0] },
   { ob_refcnt := 1, val := .other }, { ob_refcnt := 1, val := .tuple [0, 4] }]

/-- A heap with the int 0 and a tuple of 2^32 + 2 references to it (`(0,) * (2**32 + 2)`). -/
def exLongTuple : PyHeap :=
  [{ ob_refcnt := 1, val := .int 0 },
   { ob_refcnt := 1, val := .tuple (List.replicate 4294967298 0) }]

/-- A heap with the int 2^70 (`2**70` on Python 3). -/
def exBigInt : PyHeap := [{ ob_refcnt := 1, val := .int 1180591620717411303424 }]

/-- The shape `_sizes` that line 118 hands to `PyArray_SimpleNew`, as lines 113-117 fill
it: `sizes[0..dims0-1]`, then the channel count when it exceeds 1. -/
def NumpyAllocator.newShape (dims0 : Int) (sizes : List Int) (type : Int) : List Int :=
  if CV_MAT_CN type > 1 then
    (List.range dims0.toNat).map (fun i => sizes.getD i 0) ++ [CV_MAT_CN type]
  else (List.range dims0.toNat).map (fun i => sizes.getD i 0)

/-- The number of dimensions `dims` that line 118 hands to `PyArray_SimpleNew`: `dims0`,
one more when the channel count exceeds 1 (lines 112-117). -/
def NumpyAllocator.newDims (dims0 : Int) (type : Int) : Int :=
  if CV_MAT_CN type > 1 then dims0 + 1 else dims0

/-- A 4 x 1 matrix of doubles in a block of OpenCV's default allocator. -/
def exColumn : Mat :=
  Mat.column 4 [CDouble.ofLong 7, CDouble.bits 0, CDouble.bits 0, CDouble.bits 0]

/-- The matrix `pyopencv_to` makes over the 2 x 3 byte array of `exHeap`, and the heap it
leaves. -/
def exWrapped : ToResult := pyopencv_to numpyLP64 exHeap (.obj 0) Mat.empty exInput

/-- A header of 32 dimensions, each of size 1, of three byte channels (`CV_8UC3`), over
user memory at address 8192. -/
def exDeep : Mat := Mat.header 32 (List.replicate 32 1) 16 8192 (List.replicate 32 3)

/-- A 2 x 3 byte array object whose data pointer is `NULL`. -/
def exNull : NpyArray :=
  { typenum := NPY_UBYTE, dims := [2, 3], strides := [3, 1], data := 0, c_contiguous := true }

def exNullHeap : PyHeap := [{ ob_refcnt := 1, val := .ndarray exNull }]

/-! ## The stride loop without its early exit -/

/-- The loop of lines 255-264 with the test `!needcopy` taken out of its condition, so that
every index from `n - 1` down to 0 is visited. -/
def needcopyLoopAll (strides : List Int) (ndims : Nat) (elemsize : Nat) : Nat → Bool → Bool
  | 0, needcopy => needcopy
  | i + 1, needcopy =>
    needcopyLoopAll strides ndims elemsize i
      (needcopy || decide ((i + 1 = ndims ∧ toSizeT (strides.getD i 0) ≠ elemsize) ∨
        (i + 1 < ndims ∧ strides.getD i 0 < strides.getD (i + 1) 0)))

/-- The flag `needcopy` that lines 253-267 would leave with that loop. -/
def needcopyAll (a : NpyArray) (elemsize : Nat) (needcast : Bool) : Bool :=
  let nc := needcopyLoopAll a.strides a.dims.length elemsize a.dims.length needcast
  if ismultichannel a ∧ a.strides.getD 1 0 ≠ (elemsize : Int) * a.dims.getD 2 0 then true else nc

/-- A 2 x 2 x 3 byte array whose middle stride is not 3 (a view of every other pixel). -/
def exSkipped : NpyArray :=
  { typenum := NPY_UBYTE, dims := [2, 2, 3], strides := [12, 6, 1], data := 4096,
    c_contiguous := false }

/-! # Theorems -/

/-! ## Heap lemmas -/

theorem Py_INCREF_length (h : PyHeap) (id : Nat) : (Py_INCREF h id).length = h.length := by
  simp [Py_INCREF]

theorem Py_DECREF_length (h : PyHeap) (id : Nat) : (Py_DECREF h id).length = h.length := by
  simp [Py_DECREF]

theorem val_Py_INCREF (h : PyHeap) (id j : Nat) : (Py_INCREF h id).val j = h.val j := by
  unfold PyHeap.val Py_INCREF
  rw [List.getElem?_modify]
  cases h[j]? <;> simp
  split <;> rfl

theorem val_Py_DECREF (h : PyHeap) (id j : Nat) : (Py_DECREF h id).val j = h.val j := by
  unfold PyHeap.val Py_DECREF
  rw [List.getElem?_modify]
  cases h[j]? <;> simp
  split <;> rfl

theorem lt_length_of_val {h : PyHeap} {o : Nat} {a : NpyArray}
    (ho : h.val o = PyVal.ndarray a) : o < h.length := by
  by_contra hlt
  have : h[o]? = Option.none := List.getElem?_eq_none (by omega)
  simp [PyHeap.val, this] at ho

theorem refcnt_Py_INCREF (h : PyHeap) (i j : Nat) :
    (Py_INCREF h i).refcnt j = if i = j ∧ j < h.length then h.refcnt j + 1 else h.refcnt j := by
  unfold PyHeap.refcnt Py_INCREF
  rw [List.getElem?_modify]
  by_cases hj : j < h.length
  · rw [List.getElem?_eq_getElem hj]
    by_cases hij : i = j <;> simp [hij, hj]
  · rw [List.getElem?_eq_none (by omega)]
    simp [hj]

theorem refcnt_Py_DECREF (h : PyHeap) (i j : Nat) :
    (Py_DECREF h i).refcnt j = if i = j ∧ j < h.length then h.refcnt j - 1 else h.refcnt j := by
  unfold PyHeap.refcnt Py_DECREF
  rw [List.getElem?_modify]
  by_cases hj : j < h.length
  · rw [List.getElem?_eq_getElem hj]
    by_cases hij : i = j <;> simp [hij, hj]
  · rw [List.getElem?_eq_none (by omega)]
    simp [hj]

theorem val_alloc (h : PyHeap) (v : PyVal) (j : Nat) (hj : j < h.length) :
    (h.alloc v).1.val j = h.val j := by
  simp [PyHeap.alloc, PyHeap.val, List.getElem?_append_left hj]

theorem refcnt_alloc (h : PyHeap) (v : PyVal) (j : Nat) (hj : j < h.length) :
    (h.alloc v).1.refcnt j = h.refcnt j := by
  simp [PyHeap.alloc, PyHeap.refcnt, List.getElem?_append_left hj]

theorem alloc_length (h : PyHeap) (v : PyVal) : (h.alloc v).1.length = h.length + 1 := by
  simp [PyHeap.alloc]

theorem val_alloc_new (h : PyHeap) (v : PyVal) : (h.alloc v).1.val h.length = v := by
  simp [PyHeap.alloc, PyHeap.val]

theorem refcnt_alloc_new (h : PyHeap) (v : PyVal) : (h.alloc v).1.refcnt h.length = 1 := by
  simp [PyHeap.alloc, PyHeap.refcnt]

/-! ## The array path -/

theorem pyopencv_to_ndarray (np : Numpy) (h : PyHeap) (o : Nat) (a : NpyArray) (m : Mat)
    (info : ArgInfo) (ho : h.val o = PyVal.ndarray a) :
    pyopencv_to np h (.obj o) m info = arrayTo np h o a m info := by
  simp [pyopencv_to, ho]

/-- The successful exit of the array path (line 324): what is returned, over which object
the token is made, and what happened to the heap. -/
theorem arrayTo_ok (np : Numpy) (h : PyHeap) (o : Nat) (a : NpyArray) (m : Mat)
    (info : ArgInfo) (dt : Dtype)
    (hdt : classifyDtype np.dataModel a.typenum = some dt)
    (hrank : a.dims.length < CV_MAX_DIM)
    (hout : ¬ (needcopy a (CV_ELEM_SIZE1 dt.type) dt.needcast = true ∧ info.outputarg = true)) :
    (arrayTo np h o a m info).ret = true ∧
    (arrayTo np h o a m info).err = Option.none ∧
    (arrayTo np h o a m info).m.allocator = some Allocator.numpy ∧
    (arrayTo np h o a m info).m.data =
      MatData.ptr (resolve np h o a (needcopy a (CV_ELEM_SIZE1 dt.type) dt.needcast) dt).2.2.data ∧
    (arrayTo np h o a m info).m.u.map (fun u => u.userdata) =
      some (some (resolve np h o a (needcopy a (CV_ELEM_SIZE1 dt.type) dt.needcast) dt).2.1) ∧
    (arrayTo np h o a m info).heap =
      (if needcopy a (CV_ELEM_SIZE1 dt.type) dt.needcast
       then (resolve np h o a (needcopy a (CV_ELEM_SIZE1 dt.type) dt.needcast) dt).1
       else Py_INCREF
        (resolve np h o a (needcopy a (CV_ELEM_SIZE1 dt.type) dt.needcast) dt).1
        (resolve np h o a (needcopy a (CV_ELEM_SIZE1 dt.type) dt.needcast) dt).2.1) := by
  have hr : ¬ CV_MAX_DIM ≤ a.dims.length := by omega
  simp only [arrayTo, hdt, hr, hout, if_false]
  simp [Mat.addref, NumpyAllocator.allocate, Mat.header]

/-- The layout rejection (lines 269-275). -/
theorem arrayTo_output_rejected (np : Numpy) (h : PyHeap) (o : Nat) (a : NpyArray) (m : Mat)
    (info : ArgInfo) (dt : Dtype)
    (hdt : classifyDtype np.dataModel a.typenum = some dt)
    (hrank : a.dims.length < CV_MAX_DIM)
    (hnc : needcopy a (CV_ELEM_SIZE1 dt.type) dt.needcast = true)
    (hout : info.outputarg = true) :
    arrayTo np h o a m info =
      { ret := false, m := m, heap := h,
        err := some (failmsg "Layout of the output array %s is incompatible with cv::Mat (step[ndims-1] != elemsize or step[1] != elemsize*nchannels)"
          [FmtArg.str info.name]) } := by
  have hr : ¬ CV_MAX_DIM ≤ a.dims.length := by omega
  simp [arrayTo, hdt, hr, hnc, hout]

/-! ## The copy decision -/

theorem needcopyLoop_true (strides : List Int) (ndims elemsize n : Nat) :
    needcopyLoop strides ndims elemsize n true = true := by
  cases n <;> simp [needcopyLoop]

theorem needcopyLoop_iff (strides : List Int) (ndims elemsize : Nat) (n : Nat) (nc : Bool) :
    needcopyLoop strides ndims elemsize n nc = true ↔
      nc = true ∨ ∃ i, i < n ∧ strideViolation strides ndims elemsize i := by
  induction n generalizing nc with
  | zero => simp [needcopyLoop]
  | succ n ih =>
    cases nc with
    | true => simp [needcopyLoop]
    | false =>
      simp only [needcopyLoop, Bool.false_eq_true, if_false, false_or]
      rw [ih]
      constructor
      · rintro (hv | ⟨i, hi, hv⟩)
        · exact ⟨n, Nat.lt_succ_self n, by simpa [strideViolation] using hv⟩
        · exact ⟨i, Nat.lt_succ_of_lt hi, hv⟩
      · rintro ⟨i, hi, hv⟩
        rcases Nat.lt_succ_iff_lt_or_eq.mp hi with hlt | heq
        · exact Or.inr ⟨i, hlt, hv⟩
        · subst heq
          exact Or.inl (by simpa [strideViolation] using hv)

theorem needcopy_iff (a : NpyArray) (elemsize : Nat) (needcast : Bool) :
    needcopy a elemsize needcast = true ↔
      needcast = true ∨
      (∃ i, i < a.dims.length ∧ strideViolation a.strides a.dims.length elemsize i) ∨
      (ismultichannel a = true ∧ a.strides.getD 1 0 ≠ (elemsize : Int) * a.dims.getD 2 0) := by
  unfold needcopy
  simp only []
  split
  · rename_i hm
    simp only [true_iff]
    exact Or.inr (Or.inr hm)
  · rename_i hm
    rw [needcopyLoop_iff]
    constructor
    · rintro (h | h)
      · exact Or.inl h
      · exact Or.inr (Or.inl h)
    · rintro (h | h | h)
      · exact Or.inl h
      · exact Or.inr h
      · exact absurd h hm

theorem toSizeT_eq_iff (s : Int) (e : Nat) (hs : isIntp s) (he : e ≤ 8) :
    toSizeT s = e ↔ s = e := by
  unfold toSizeT
  unfold isIntp at hs
  constructor
  · intro h
    omega
  · intro h
    subst h
    omega

theorem CV_ELEM_SIZE1_le (type : Int) : CV_ELEM_SIZE1 type ≤ 8 ∧ 1 ≤ CV_ELEM_SIZE1 type := by
  unfold CV_ELEM_SIZE1
  split_ifs <;> omega

/-! ## Reference counts along conversions and releases -/

theorem arrayTo_refcnt (np : Numpy) (h : PyHeap) (o : Nat) (a : NpyArray) (m : Mat)
    (info : ArgInfo) (ho : h.val o = PyVal.ndarray a)
    (hret : (arrayTo np h o a m info).ret = true) :
    (arrayTo np h o a m info).heap.val o = PyVal.ndarray a ∧
    (arrayTo np h o a m info).heap.refcnt o =
      h.refcnt o + (if boundTo o (arrayTo np h o a m info).m.u then 1 else 0) := by
  have hlen := lt_length_of_val ho
  cases hdt : classifyDtype np.dataModel a.typenum with
  | none => simp [arrayTo, hdt] at hret
  | some dt =>
    by_cases hrank : a.dims.length < CV_MAX_DIM
    swap
    · have : CV_MAX_DIM ≤ a.dims.length := by omega
      simp [arrayTo, hdt, this] at hret
    by_cases hout : needcopy a (CV_ELEM_SIZE1 dt.type) dt.needcast = true ∧ info.outputarg = true
    · simp [arrayTo_output_rejected np h o a m info dt hdt hrank hout.1 hout.2] at hret
    obtain ⟨-, -, -, -, hu, hheap⟩ := arrayTo_ok np h o a m info dt hdt hrank hout
    rw [hheap]
    unfold boundTo
    rw [hu]
    cases hnc : needcopy a (CV_ELEM_SIZE1 dt.type) dt.needcast with
    | false =>
      simp [resolve, val_Py_INCREF, ho, refcnt_Py_INCREF, hlen]
    | true =>
      cases hcast : dt.needcast with
      | true =>
        have hne : ¬ h.length = o := by omega
        simp [resolve, hcast, PyArray_Cast, val_alloc _ _ _ hlen, refcnt_alloc _ _ _ hlen, ho,
          hne]
      | false =>
        cases hc : a.c_contiguous with
        | true =>
          simp [resolve, hcast, PyArray_GETCONTIGUOUS, hc, val_Py_INCREF, ho,
            refcnt_Py_INCREF, hlen]
        | false =>
          have hne : ¬ h.length = o := by omega
          simp [resolve, hcast, PyArray_GETCONTIGUOUS, hc, val_alloc _ _ _ hlen,
            refcnt_alloc _ _ _ hlen, ho, hne]

theorem convertMany_refcnt (np : Numpy) (o : Nat) (a : NpyArray) (infos : List ArgInfo) :
    ∀ (h h1 : PyHeap) (us : List (Option UMatData)),
      h.val o = PyVal.ndarray a → convertMany np o infos h = some (h1, us) →
      h1.val o = PyVal.ndarray a ∧ us.length = infos.length ∧
      h1.refcnt o = h.refcnt o + (us.countP (boundTo o) : Nat) := by
  induction infos with
  | nil =>
    intro h h1 us ho hc
    simp [convertMany] at hc
    obtain ⟨rfl, rfl⟩ := hc
    simp [ho]
  | cons info rest ih =>
    intro h h1 us ho hc
    rw [convertMany] at hc
    split at hc
    swap
    · simp at hc
    rename_i hret
    rw [pyopencv_to_ndarray np h o a _ info ho] at hc hret
    obtain ⟨hval, hcnt⟩ := arrayTo_refcnt np h o a Mat.empty info ho hret
    cases hrest : convertMany np o rest (arrayTo np h o a Mat.empty info).heap with
    | none => simp [hrest] at hc
    | some r =>
      simp only [hrest, Option.some.injEq, Prod.mk.injEq] at hc
      obtain ⟨rfl, rfl⟩ := hc
      obtain ⟨h1v, h1l, h1c⟩ := ih _ r.1 r.2 hval (by rw [hrest])
      refine ⟨h1v, by simp [h1l], ?_⟩
      rw [h1c, hcnt, List.countP_cons]
      split
      · simp; omega
      · simp

theorem releaseAll_refcnt (o : Nat) (us : List (Option UMatData)) :
    ∀ h : PyHeap, o < h.length →
      (releaseAll h us).refcnt o = h.refcnt o - (us.countP (boundTo o) : Nat) := by
  induction us with
  | nil => intro h _; simp [releaseAll]
  | cons u us ih =>
    intro h hlen
    have hl : o < (NumpyAllocator.deallocate h u).length := by
      cases u with
      | none => simpa [NumpyAllocator.deallocate] using hlen
      | some u =>
        cases hud : u.userdata <;>
          simp [NumpyAllocator.deallocate, Py_XDECREF, hud, Py_DECREF_length, hlen]
    rw [releaseAll, ih _ hl, List.countP_cons]
    cases u with
    | none => simp [NumpyAllocator.deallocate, boundTo]
    | some u =>
      cases hud : u.userdata with
      | none => simp [NumpyAllocator.deallocate, Py_XDECREF, hud, boundTo]
      | some w =>
        by_cases hw : w = o
        · subst hw
          simp [NumpyAllocator.deallocate, Py_XDECREF, hud, boundTo, refcnt_Py_DECREF, hlen]
          omega
        · simp [NumpyAllocator.deallocate, Py_XDECREF, hud, boundTo, refcnt_Py_DECREF, hw]

/-! ## C1: round trip -/

/-- C1. Round trip foreign -> native -> foreign: when `o` points to an array with non-null
data, a directly supported dtype (`classifyDtype` accepts it without promotion), a rank that
passes the dimensionality test and a layout for which the copy decision is false,
`pyopencv_to` returns `true`, the token of `m` is bound to `o`, `m` carries the bridge
allocator, and `pyopencv_from` on that matrix returns the very same pointer `o`. -/
theorem C1_roundtrip_identity (np : Numpy) (h : PyHeap) (o : Nat) (a : NpyArray) (m : Mat)
    (info : ArgInfo) (dt : Dtype)
    (ho : h.val o = PyVal.ndarray a)
    (hdata : a.data ≠ 0)
    (hdt : classifyDtype np.dataModel a.typenum = some dt)
    (hdirect : dt.needcast = false)
    (hrank : a.dims.length < CV_MAX_DIM)
    (hnc : needcopy a (CV_ELEM_SIZE1 dt.type) false = false) :
    (pyopencv_to np h (.obj o) m info).ret = true ∧
    (pyopencv_to np h (.obj o) m info).m.u.map (fun u => u.userdata) = some (some o) ∧
    (pyopencv_to np h (.obj o) m info).m.allocator = some Allocator.numpy ∧
    (pyopencv_from np (pyopencv_to np h (.obj o) m info).heap
      (pyopencv_to np h (.obj o) m info).m).ret = PyRef.obj o := by
  replace hnc : needcopy a (CV_ELEM_SIZE1 dt.type) dt.needcast = false := by
    rw [hdirect]; exact hnc
  have hout : ¬ (needcopy a (CV_ELEM_SIZE1 dt.type) dt.needcast = true ∧
      info.outputarg = true) := by simp [hnc]
  obtain ⟨hret, -, halloc, hd, hu, -⟩ := arrayTo_ok np h o a m info dt hdt hrank hout
  rw [pyopencv_to_ndarray np h o a m info ho]
  simp only [hnc, resolve, Bool.false_eq_true, if_false] at hd hu
  refine ⟨hret, hu, halloc, ?_⟩
  cases hmu : (arrayTo np h o a m info).m.u with
  | none => simp [hmu] at hu
  | some u =>
    have hud : u.userdata = some o := by simpa [hmu] using hu
    simp [pyopencv_from, hd, MatData.isNull, hdata, hmu, halloc, hud]

/-- C1 at a 2 x 3 byte array. -/
theorem C1_roundtrip_identity_witness :
    exHeap.val 0 = PyVal.ndarray exBytes ∧ exBytes.data ≠ 0 ∧
    classifyDtype numpyLP64.dataModel exBytes.typenum = some ⟨CV_8U, false, NPY_UBYTE⟩ ∧
    exBytes.dims.length < CV_MAX_DIM ∧
    needcopy exBytes (CV_ELEM_SIZE1 CV_8U) false = false ∧
    (pyopencv_from numpyLP64 (pyopencv_to numpyLP64 exHeap (.obj 0) Mat.empty exInput).heap
      (pyopencv_to numpyLP64 exHeap (.obj 0) Mat.empty exInput).m).ret = PyRef.obj 0 :=
  ⟨by decide, by decide, by decide, by decide, by decide,
    (C1_roundtrip_identity numpyLP64 exHeap 0 exBytes Mat.empty exInput ⟨CV_8U, false, NPY_UBYTE⟩
      (by decide) (by decide) (by decide) rfl (by decide) (by decide)).2.2.2⟩

/-! ## C2: reference counts -/

/-- One successful conversion: either the token is bound to `o`, which got one reference
that the release takes back, or it is bound to the array just made at the end of the heap,
whose single reference the release takes, and the count of `o` was not touched.  Without a
copy the token is bound to `o`. -/
theorem arrayTo_accounting (np : Numpy) (h : PyHeap) (o : Nat) (a : NpyArray) (m : Mat)
    (info : ArgInfo) (ho : h.val o = PyVal.ndarray a)
    (hret : (arrayTo np h o a m info).ret = true) :
    ((boundTo o (arrayTo np h o a m info).m.u = true ∧
        (arrayTo np h o a m info).heap.refcnt o = h.refcnt o + 1 ∧
        (NumpyAllocator.deallocate (arrayTo np h o a m info).heap
          (arrayTo np h o a m info).m.u).refcnt o = h.refcnt o) ∨
      (boundTo h.length (arrayTo np h o a m info).m.u = true ∧
        h.val h.length = PyVal.other ∧
        (arrayTo np h o a m info).heap.refcnt o = h.refcnt o ∧
        (arrayTo np h o a m info).heap.refcnt h.length = 1 ∧
        (NumpyAllocator.deallocate (arrayTo np h o a m info).heap
          (arrayTo np h o a m info).m.u).refcnt h.length = 0 ∧
        (NumpyAllocator.deallocate (arrayTo np h o a m info).heap
          (arrayTo np h o a m info).m.u).refcnt o = h.refcnt o)) ∧
    (∀ dt, classifyDtype np.dataModel a.typenum = some dt →
      needcopy a (CV_ELEM_SIZE1 dt.type) dt.needcast = false →
      boundTo o (arrayTo np h o a m info).m.u = true) := by
  have hlen := lt_length_of_val ho
  have hnew : h.val h.length = PyVal.other := by
    have : h[h.length]? = Option.none := List.getElem?_eq_none (Nat.le_refl _)
    simp [PyHeap.val, this]
  have hne : ¬ h.length = o := by omega
  have hne2 : ¬ o = h.length := by omega
  cases hdt : classifyDtype np.dataModel a.typenum with
  | none => simp [arrayTo, hdt] at hret
  | some dt =>
    by_cases hrank : a.dims.length < CV_MAX_DIM
    swap
    · have : CV_MAX_DIM ≤ a.dims.length := by omega
      simp [arrayTo, hdt, this] at hret
    by_cases hout : needcopy a (CV_ELEM_SIZE1 dt.type) dt.needcast = true ∧ info.outputarg = true
    · simp [arrayTo_output_rejected np h o a m info dt hdt hrank hout.1 hout.2] at hret
    obtain ⟨-, -, -, -, hu, hheap⟩ := arrayTo_ok np h o a m info dt hdt hrank hout
    cases hmu : (arrayTo np h o a m info).m.u with
    | none => simp [hmu] at hu
    | some u =>
      have hud : u.userdata =
          some (resolve np h o a (needcopy a (CV_ELEM_SIZE1 dt.type) dt.needcast) dt).2.1 := by
        simpa [hmu] using hu
      constructor
      swap
      · intro dt1 hdt1 hnc1
        simp only [Option.some.injEq] at hdt1
        subst hdt1
        simp [boundTo, hud, hnc1, resolve]
      rw [hheap]
      simp only [boundTo, Option.map_some', NumpyAllocator.deallocate, Py_XDECREF, hud,
        Option.some.injEq, decide_eq_true_eq]
      cases hnc : needcopy a (CV_ELEM_SIZE1 dt.type) dt.needcast with
      | false =>
        simp [resolve, refcnt_Py_INCREF, refcnt_Py_DECREF, Py_INCREF_length, hlen]
      | true =>
        by_cases hcast : dt.needcast = true
        · simp [resolve, hcast, PyArray_Cast, refcnt_alloc _ _ _ hlen, refcnt_alloc_new,
            refcnt_Py_DECREF, hne, hne2, hnew, alloc_length]
        · by_cases hc : a.c_contiguous = true
          · simp [resolve, hcast, PyArray_GETCONTIGUOUS, hc, refcnt_Py_INCREF,
              refcnt_Py_DECREF, Py_INCREF_length, hlen]
          · simp [resolve, hcast, PyArray_GETCONTIGUOUS, hc, refcnt_alloc _ _ _ hlen,
              refcnt_alloc_new, refcnt_Py_DECREF, hne, hne2, hnew, alloc_length]

/-- C2, as amended. Reference-count invariant: for every array object `o`, every number of
conversions of `o` into new matrices that all return `true` (one per descriptor of `infos`,
run one after the other) and every order in which the tokens of those matrices are then
handed once each to `NumpyAllocator::deallocate`, the reference count of `o` ends at the
value it had before the first conversion.  For each single successful conversion: either
the token is bound to `o` itself (always so when no copy is needed), the conversion added
exactly one reference to `o` and the release removes it; or the token is bound to an array
made by the conversion, the count of `o` is not touched, and the release removes the single
reference of that array. -/
theorem C2_refcount_restored (np : Numpy) (h : PyHeap) (o : Nat) (a : NpyArray)
    (ho : h.val o = PyVal.ndarray a) :
    (∀ (infos : List ArgInfo) (h1 : PyHeap) (us us1 : List (Option UMatData)),
      convertMany np o infos h = some (h1, us) → us1.Perm us →
      us.length = infos.length ∧ (releaseAll h1 us1).refcnt o = h.refcnt o) ∧
    (∀ (m : Mat) (info : ArgInfo), (pyopencv_to np h (.obj o) m info).ret = true →
      ((boundTo o (pyopencv_to np h (.obj o) m info).m.u = true ∧
          (pyopencv_to np h (.obj o) m info).heap.refcnt o = h.refcnt o + 1 ∧
          (NumpyAllocator.deallocate (pyopencv_to np h (.obj o) m info).heap
            (pyopencv_to np h (.obj o) m info).m.u).refcnt o = h.refcnt o) ∨
        (boundTo h.length (pyopencv_to np h (.obj o) m info).m.u = true ∧
          h.val h.length = PyVal.other ∧
          (pyopencv_to np h (.obj o) m info).heap.refcnt o = h.refcnt o ∧
          (pyopencv_to np h (.obj o) m info).heap.refcnt h.length = 1 ∧
          (NumpyAllocator.deallocate (pyopencv_to np h (.obj o) m info).heap
            (pyopencv_to np h (.obj o) m info).m.u).refcnt h.length = 0 ∧
          (NumpyAllocator.deallocate (pyopencv_to np h (.obj o) m info).heap
            (pyopencv_to np h (.obj o) m info).m.u).refcnt o = h.refcnt o)) ∧
      (∀ dt, classifyDtype np.dataModel a.typenum = some dt →
        needcopy a (CV_ELEM_SIZE1 dt.type) dt.needcast = false →
        boundTo o (pyopencv_to np h (.obj o) m info).m.u = true)) := by
  constructor
  · intro infos h1 us us1 hconv hperm
    obtain ⟨hv, hl, hc⟩ := convertMany_refcnt np o a infos h h1 us ho hconv
    refine ⟨hl, ?_⟩
    rw [releaseAll_refcnt o us1 h1 (lt_length_of_val hv), hperm.countP_eq, hc]
    omega
  · intro m info hret
    rw [pyopencv_to_ndarray np h o a m info ho] at hret ⊢
    exact arrayTo_accounting np h o a m info ho hret

/-- C2 (amended) at three conversions of a byte array, the tokens released in reverse
order. -/
theorem C2_refcount_restored_witness :
    exHeap.val 0 = PyVal.ndarray exBytes ∧
    (convertMany numpyLP64 0 [exInput, exOutput, exInput] exHeap).map
        (fun r => (r.1.refcnt 0, r.2.length, (releaseAll r.1 r.2.reverse).refcnt 0)) =
      some (4, 3, exHeap.refcnt 0) := by
  refine ⟨by decide, ?_⟩
  cases hc : convertMany numpyLP64 0 [exInput, exOutput, exInput] exHeap with
  | none => exact absurd hc (by decide)
  | some r =>
    have h4 : r.1.refcnt 0 = 4 := by
      have : (convertMany numpyLP64 0 [exInput, exOutput, exInput] exHeap).map
          (fun r => r.1.refcnt 0) = some 4 := by decide
      simpa [hc] using this
    have hthm := (C2_refcount_restored numpyLP64 exHeap 0 exBytes (by decide)).1
      [exInput, exOutput, exInput] r.1 r.2 r.2.reverse hc (List.reverse_perm r.2)
    simp [h4, hthm.1, hthm.2]

/-- C2 as stated fails in its account of the copy path: a one-element view with a negative
stride needs a copy, numpy flags it C-contiguous, and the conversion leaves the count of
the original object at 2 instead of 1, the token being bound to that object. -/
theorem C2_counterexample :
    exReversedOneHeap.val 0 = PyVal.ndarray exReversedOne ∧
    needcopy exReversedOne (CV_ELEM_SIZE1 CV_64F) false = true ∧
    (pyopencv_to numpyLP64 exReversedOneHeap (.obj 0) Mat.empty exInput).ret = true ∧
    exReversedOneHeap.refcnt 0 = 1 ∧
    (pyopencv_to numpyLP64 exReversedOneHeap (.obj 0) Mat.empty exInput).heap.refcnt 0 = 2 ∧
    boundTo 0 (pyopencv_to numpyLP64 exReversedOneHeap (.obj 0) Mat.empty exInput).m.u
      = true := by
  decide

/-! ## C3: output-layout rejection -/

/-- C3. Output-layout rejection is atomic: for an array whose dtype `classifyDtype` accepts
(directly or by promotion) and whose rank passes the dimensionality test, if the copy
decision is true and `info.outputarg` is true, `pyopencv_to` returns `false` with the
incompatible-layout error carrying `info.name`, and the heap (every object and every
reference count) and the matrix `m` are exactly as before the call. -/
theorem C3_output_layout_rejected (np : Numpy) (h : PyHeap) (o : Nat) (a : NpyArray) (m : Mat)
    (info : ArgInfo) (dt : Dtype)
    (ho : h.val o = PyVal.ndarray a)
    (hdt : classifyDtype np.dataModel a.typenum = some dt)
    (hrank : a.dims.length < CV_MAX_DIM)
    (hnc : needcopy a (CV_ELEM_SIZE1 dt.type) dt.needcast = true)
    (hout : info.outputarg = true) :
    pyopencv_to np h (.obj o) m info =
      { ret := false, m := m, heap := h,
        err := some (failmsg "Layout of the output array %s is incompatible with cv::Mat (step[ndims-1] != elemsize or step[1] != elemsize*nchannels)"
          [FmtArg.str info.name]) } := by
  rw [pyopencv_to_ndarray np h o a m info ho]
  exact arrayTo_output_rejected np h o a m info dt hdt hrank hnc hout

/-- C3 at a sliced byte array passed as an output. -/
theorem C3_output_layout_rejected_witness :
    exSlicedHeap.val 0 = PyVal.ndarray exSliced ∧
    classifyDtype numpyLP64.dataModel exSliced.typenum = some ⟨CV_8U, false, NPY_UBYTE⟩ ∧
    exSliced.dims.length < CV_MAX_DIM ∧
    needcopy exSliced (CV_ELEM_SIZE1 CV_8U) false = true ∧
    exOutput.outputarg = true ∧
    pyopencv_to numpyLP64 exSlicedHeap (.obj 0) Mat.empty exOutput =
      { ret := false, m := Mat.empty, heap := exSlicedHeap,
        err := some (failmsg "Layout of the output array %s is incompatible with cv::Mat (step[ndims-1] != elemsize or step[1] != elemsize*nchannels)"
          [FmtArg.str "dst"]) } :=
  ⟨by decide, by decide, by decide, by decide, rfl,
    C3_output_layout_rejected numpyLP64 exSlicedHeap 0 exSliced Mat.empty exOutput
      ⟨CV_8U, false, NPY_UBYTE⟩ (by decide) (by decide) (by decide) (by decide) rfl⟩

/-! ## C4: dtype classification -/

theorem classifyDtype_eq_table (dm : DataModel) (typenum : Int) :
    classifyDtype dm typenum = classifyDtypeTable dm typenum := by
  by_cases h1 : typenum = 1
  · subst h1; cases dm <;> decide
  by_cases h2 : typenum = 2
  · subst h2; cases dm <;> decide
  by_cases h3 : typenum = 3
  · subst h3; cases dm <;> decide
  by_cases h4 : typenum = 4
  · subst h4; cases dm <;> decide
  by_cases h5 : typenum = 5
  · subst h5; cases dm <;> decide
  by_cases h7 : typenum = 7
  · subst h7; cases dm <;> decide
  by_cases h8 : typenum = 8
  · subst h8; cases dm <;> decide
  by_cases h9 : typenum = 9
  · subst h9; cases dm <;> decide
  by_cases h10 : typenum = 10
  · subst h10; cases dm <;> decide
  by_cases h11 : typenum = 11
  · subst h11; cases dm <;> decide
  by_cases h12 : typenum = 12
  · subst h12; cases dm <;> decide
  cases dm <;>
    simp [classifyDtype, classifyDtypeTable, typenumToDepth, is32BitSignedInteger, isInt64Alias,
      NPY_INT32, NPY_INT64, NPY_UINT64, NPY_UBYTE, NPY_BYTE, NPY_USHORT, NPY_SHORT,
      NPY_INT, NPY_LONG, NPY_ULONG, NPY_LONGLONG, NPY_ULONGLONG, NPY_FLOAT, NPY_DOUBLE,
      h1, h2, h3, h4, h5, h7, h8, h9, h10, h11, h12]

/-- C4, as amended. The classification at the top of `pyopencv_to` equals the reference
table for every type code and both data models: unsigned/signed 8-bit -> 8U/8S,
unsigned/signed 16-bit -> 16U/16S, 32-bit signed int -> 32S, 32-bit float -> 32F, 64-bit
float -> 64F, all without promotion; the two type codes `NPY_INT64` and `NPY_UINT64` stand
for -> 32S with promotion and cast target `NPY_INT`; every other type code makes the
conversion return `false` with the "data type is not supported" error carrying the
parameter name and the type code, the heap and `m` untouched. -/
theorem C4_classification_table (np : Numpy) (h : PyHeap) (o : Nat) (a : NpyArray) (m : Mat)
    (info : ArgInfo) (ho : h.val o = PyVal.ndarray a) :
    classifyDtype np.dataModel a.typenum = classifyDtypeTable np.dataModel a.typenum ∧
    (classifyDtypeTable np.dataModel a.typenum = Option.none →
      pyopencv_to np h (.obj o) m info =
        { ret := false, m := m, heap := h,
          err := some (failmsg "%s data type = %d is not supported"
            [FmtArg.str info.name, FmtArg.int a.typenum]) }) ∧
    (∀ dt, classifyDtypeTable np.dataModel a.typenum = some dt →
      (pyopencv_to np h (.obj o) m info).err ≠
        some (failmsg "%s data type = %d is not supported"
          [FmtArg.str info.name, FmtArg.int a.typenum])) := by
  refine ⟨classifyDtype_eq_table _ _, ?_, ?_⟩
  · intro hn
    rw [← classifyDtype_eq_table] at hn
    rw [pyopencv_to_ndarray np h o a m info ho]
    simp [arrayTo, hn]
  · intro dt hs
    rw [← classifyDtype_eq_table] at hs
    rw [pyopencv_to_ndarray np h o a m info ho]
    simp only [arrayTo, hs]
    split_ifs <;> simp [failmsg]

/-- C4 (amended) at an array of unsigned 32-bit integers, which is refused. -/
theorem C4_classification_table_witness :
    exUIntHeap.val 0 = PyVal.ndarray exUInt ∧
    classifyDtypeTable numpyLP64.dataModel exUInt.typenum = Option.none ∧
    pyopencv_to numpyLP64 exUIntHeap (.obj 0) Mat.empty exInput =
      { ret := false, m := Mat.empty, heap := exUIntHeap,
        err := some (failmsg "%s data type = %d is not supported"
          [FmtArg.str "src", FmtArg.int 6]) } :=
  ⟨by decide, by decide,
    (C4_classification_table numpyLP64 exUIntHeap 0 exUInt Mat.empty exInput (by decide)).2.1
      (by decide)⟩

/-- C4 as stated fails: on LP64 `NPY_LONGLONG` is a 64-bit integer type code, the
specification's table promotes it, and the code refuses it as unsupported. -/
theorem C4_counterexample :
    is64BitInteger DataModel.lp64 NPY_LONGLONG = true ∧
    classifyDtypeSpec DataModel.lp64 NPY_LONGLONG =
      some { type := CV_32S, needcast := true, new_typenum := NPY_INT } ∧
    classifyDtype DataModel.lp64 NPY_LONGLONG = Option.none ∧
    pyopencv_to numpyLP64 exLongLongHeap (.obj 0) Mat.empty exInput =
      { ret := false, m := Mat.empty, heap := exLongLongHeap,
        err := some (failmsg "%s data type = %d is not supported"
          [FmtArg.str "src", FmtArg.int 9]) } := by
  decide

/-! ## C5: stride ordering -/

theorem needcopy_false_iff (a : NpyArray) (elemsize : Nat) :
    needcopy a elemsize false = false ↔
      (∀ i, i < a.dims.length → ¬ strideViolation a.strides a.dims.length elemsize i) ∧
      ¬ (ismultichannel a = true ∧ a.strides.getD 1 0 ≠ (elemsize : Int) * a.dims.getD 2 0) := by
  rw [← Bool.not_eq_true, needcopy_iff]
  simp only [Bool.false_eq_true, false_or, not_or, not_exists, not_and]

/-- C5, as amended. For an array that needs no dtype promotion (strides being `npy_intp`
values): the copy decision is false only if the innermost stride equals exactly one
element's size and the strides do not grow with the dimension index, i.e.
`strides[i] >= strides[i+1]` for every `i < rank-1`; an innermost stride other than the
element size, or `strides[i] < strides[i+1]` for some `i`, makes the copy decision true. -/
theorem C5_stride_ordering (a : NpyArray) (type : Int)
    (hs : ∀ i, isIntp (a.strides.getD i 0)) :
    (needcopy a (CV_ELEM_SIZE1 type) false = false →
      (1 ≤ a.dims.length → a.strides.getD (a.dims.length - 1) 0 = (CV_ELEM_SIZE1 type : Int)) ∧
      (∀ i, i + 1 < a.dims.length → a.strides.getD (i + 1) 0 ≤ a.strides.getD i 0)) ∧
    ((1 ≤ a.dims.length ∧ a.strides.getD (a.dims.length - 1) 0 ≠ (CV_ELEM_SIZE1 type : Int)) ∨
      (∃ i, i + 1 < a.dims.length ∧ a.strides.getD i 0 < a.strides.getD (i + 1) 0) →
      needcopy a (CV_ELEM_SIZE1 type) false = true) := by
  have he := (CV_ELEM_SIZE1_le type).1
  constructor
  · intro hnc
    rw [needcopy_false_iff] at hnc
    obtain ⟨hv, -⟩ := hnc
    constructor
    · intro hr
      have h1 := hv (a.dims.length - 1) (by omega)
      by_contra hne
      apply h1
      left
      refine ⟨by omega, ?_⟩
      rw [Ne, toSizeT_eq_iff _ _ (hs _) he]
      exact hne
    · intro i hi
      have h1 := hv i (by omega)
      by_contra hlt
      apply h1
      right
      exact ⟨hi, by omega⟩
  · intro hviol
    rw [needcopy_iff]
    right; left
    rcases hviol with ⟨hr, hne⟩ | ⟨i, hi, hlt⟩
    · refine ⟨a.dims.length - 1, by omega, Or.inl ⟨by omega, ?_⟩⟩
      rw [Ne, toSizeT_eq_iff _ _ (hs _) he]
      exact hne
    · exact ⟨i, by omega, Or.inr ⟨hi, hlt⟩⟩

theorem isIntp_getD (l : List Int) (hl : ∀ s ∈ l, isIntp s) (i : Nat) : isIntp (l.getD i 0) := by
  by_cases hi : i < l.length
  · rw [List.getD_eq_getElem l 0 hi]
    exact hl _ (List.getElem_mem hi)
  · rw [List.getD_eq_default l 0 (by omega)]
    decide

/-- C5 (amended) at a C-contiguous 2 x 3 byte array: no copy, strides 3 >= 1. -/
theorem C5_stride_ordering_witness :
    (∀ i, isIntp (exBytes.strides.getD i 0)) ∧
    needcopy exBytes (CV_ELEM_SIZE1 CV_8U) false = false ∧
    exBytes.strides.getD (exBytes.dims.length - 1) 0 = (CV_ELEM_SIZE1 CV_8U : Int) ∧
    exBytes.strides.getD (0 + 1) 0 ≤ exBytes.strides.getD 0 0 :=
  have hi : ∀ i, isIntp (exBytes.strides.getD i 0) :=
    isIntp_getD exBytes.strides (by decide)
  ⟨hi, by decide,
    ((C5_stride_ordering exBytes CV_8U hi).1 (by decide)).1 (by decide),
    ((C5_stride_ordering exBytes CV_8U hi).1 (by decide)).2 0 (by decide)⟩

/-- C5 as stated fails: a C-contiguous 2 x 3 byte array has strides (3, 1), so
`strides[0] <= strides[1]` is false, and yet its copy decision is false. -/
theorem C5_counterexample :
    needcopy exBytes (CV_ELEM_SIZE1 CV_8U) false = false ∧
    ¬ (∀ i, i + 1 < exBytes.dims.length →
        exBytes.strides.getD i 0 ≤ exBytes.strides.getD (i + 1) 0) := by
  refine ⟨by decide, fun hall => ?_⟩
  exact absurd (hall 0 (by decide)) (by decide)

/-! ## C6, C7: which object the matrix is built over -/

theorem strides_ge_of_no_violation (a : NpyArray) (elemsize : Nat) (he : elemsize ≤ 8)
    (hs : ∀ i, isIntp (a.strides.getD i 0))
    (hv : ∀ i, i < a.dims.length → ¬ strideViolation a.strides a.dims.length elemsize i) :
    ∀ k i, i + k + 1 = a.dims.length → (elemsize : Int) ≤ a.strides.getD i 0 := by
  intro k
  induction k with
  | zero =>
    intro i hi
    have h1 := hv i (by omega)
    by_contra hne
    apply h1
    left
    refine ⟨by omega, ?_⟩
    rw [Ne, toSizeT_eq_iff _ _ (hs _) he]
    omega
  | succ k ih =>
    intro i hi
    have h1 := hv i (by omega)
    have h2 := ih (i + 1) (by omega)
    by_contra hlt
    apply h1
    right
    exact ⟨by omega, by omega⟩

theorem needcopy_of_bad_layout (a : NpyArray) (type : Int) (needcast : Bool)
    (hs : ∀ i, isIntp (a.strides.getD i 0))
    (hlay : (∃ i, i < a.dims.length ∧ a.strides.getD i 0 < 0) ∨
      (∃ i, i + 1 < a.dims.length ∧ a.strides.getD i 0 < a.strides.getD (i + 1) 0)) :
    needcopy a (CV_ELEM_SIZE1 type) needcast = true := by
  obtain ⟨he8, he1⟩ := CV_ELEM_SIZE1_le type
  rcases hlay with ⟨i, hi, hneg⟩ | ⟨i, hi, hlt⟩
  · by_contra hnc
    rw [needcopy_iff] at hnc
    simp only [not_or, not_exists, not_and] at hnc
    have hge := strides_ge_of_no_violation a (CV_ELEM_SIZE1 type) he8 hs
      (fun j hj hv => hnc.2.1 j hj hv) (a.dims.length - 1 - i) i (by omega)
    omega
  · rw [needcopy_iff]
    exact Or.inr (Or.inl ⟨i, by omega, Or.inr ⟨hi, hlt⟩⟩)

/-- C6, as amended. For every array (of rank >= 1, as it has a stride) with a directly
supported dtype and a rank that passes the dimensionality test (strides being `npy_intp` values) that has a
negative stride in some dimension or `strides[i] < strides[i+1]` for some `i`, the copy
decision is true; and when the argument is not an output, `pyopencv_to` returns `true` with
the matrix bound to what `PyArray_GETCONTIGUOUS` hands back: when the array's C-contiguous
flag is clear, a newly made array object (the copy, appended to the heap with one
reference, distinct from `o`, whose buffer the matrix points at); when the flag is set, the
original object `o` itself with one more reference. -/
theorem C6_copy_on_incompatibility (np : Numpy) (h : PyHeap) (o : Nat) (a : NpyArray)
    (m : Mat) (info : ArgInfo) (dt : Dtype)
    (ho : h.val o = PyVal.ndarray a)
    (hdt : classifyDtype np.dataModel a.typenum = some dt)
    (hdirect : dt.needcast = false)
    (hrank : a.dims.length < CV_MAX_DIM)
    (hs : ∀ i, isIntp (a.strides.getD i 0))
    (hlay : (∃ i, i < a.dims.length ∧ a.strides.getD i 0 < 0) ∨
      (∃ i, i + 1 < a.dims.length ∧ a.strides.getD i 0 < a.strides.getD (i + 1) 0)) :
    needcopy a (CV_ELEM_SIZE1 dt.type) dt.needcast = true ∧
    (info.outputarg = false →
      (pyopencv_to np h (.obj o) m info).ret = true ∧
      (a.c_contiguous = false →
        (pyopencv_to np h (.obj o) m info).m.u.map (fun u => u.userdata) =
          some (some h.length) ∧
        h.length ≠ o ∧
        (pyopencv_to np h (.obj o) m info).heap =
          h ++ [{ ob_refcnt := 1,
                  val := PyVal.ndarray ((np.copy h a).toArray a.typenum a.dims) }] ∧
        (pyopencv_to np h (.obj o) m info).m.data = MatData.ptr (np.copy h a).data) ∧
      (a.c_contiguous = true →
        (pyopencv_to np h (.obj o) m info).m.u.map (fun u => u.userdata) = some (some o) ∧
        (pyopencv_to np h (.obj o) m info).heap = Py_INCREF h o ∧
        (pyopencv_to np h (.obj o) m info).m.data = MatData.ptr a.data)) := by
  have hnc := needcopy_of_bad_layout a dt.type dt.needcast hs hlay
  refine ⟨hnc, fun hout => ?_⟩
  have hlen := lt_length_of_val ho
  have hout2 : ¬ (needcopy a (CV_ELEM_SIZE1 dt.type) dt.needcast = true ∧
      info.outputarg = true) := by simp [hout]
  obtain ⟨hret, -, -, hd, hu, hheap⟩ := arrayTo_ok np h o a m info dt hdt hrank hout2
  rw [pyopencv_to_ndarray np h o a m info ho]
  rw [hnc] at hd hu hheap
  refine ⟨hret, fun hc => ?_, fun hc => ?_⟩
  · rw [hd, hu, hheap]
    simp [resolve, hdirect, PyArray_GETCONTIGUOUS, hc, PyHeap.alloc, NpyLayout.toArray]
    omega
  · rw [hd, hu, hheap]
    simp [resolve, hdirect, PyArray_GETCONTIGUOUS, hc]

/-- C6 (amended) at a reversed view of five doubles, flagged non-contiguous: the copy is
a new object at the end of the heap. -/
theorem C6_copy_on_incompatibility_witness :
    exReversedHeap.val 0 = PyVal.ndarray exReversed ∧
    (∃ i, i < exReversed.dims.length ∧ exReversed.strides.getD i 0 < 0) ∧
    needcopy exReversed (CV_ELEM_SIZE1 CV_64F) false = true ∧
    (pyopencv_to numpyLP64 exReversedHeap (.obj 0) Mat.empty exInput).ret = true ∧
    (pyopencv_to numpyLP64 exReversedHeap (.obj 0) Mat.empty exInput).m.u.map
      (fun u => u.userdata) = some (some exReversedHeap.length) :=
  have hneg : ∃ i, i < exReversed.dims.length ∧ exReversed.strides.getD i 0 < 0 :=
    ⟨0, by decide, by decide⟩
  have hthm := C6_copy_on_incompatibility numpyLP64 exReversedHeap 0 exReversed Mat.empty
    exInput ⟨CV_64F, false, NPY_DOUBLE⟩ (by decide) (by decide) rfl (by decide)
    (isIntp_getD exReversed.strides (by decide)) (Or.inl hneg)
  ⟨by decide, hneg, hthm.1, (hthm.2 rfl).1, ((hthm.2 rfl).2.1 rfl).1⟩

/-- C6 as stated fails: a one-element view with a negative stride carries numpy's
C-contiguous flag; its copy decision is true, the conversion as a non-output succeeds, and
the matrix is bound to the original object and points at the original buffer; no object is
made. -/
theorem C6_counterexample :
    exReversedOneHeap.val 0 = PyVal.ndarray exReversedOne ∧
    exReversedOne.strides.getD 0 0 < 0 ∧
    needcopy exReversedOne (CV_ELEM_SIZE1 CV_64F) false = true ∧
    (pyopencv_to numpyLP64 exReversedOneHeap (.obj 0) Mat.empty exInput).ret = true ∧
    (pyopencv_to numpyLP64 exReversedOneHeap (.obj 0) Mat.empty exInput).m.u.map
      (fun u => u.userdata) = some (some 0) ∧
    (pyopencv_to numpyLP64 exReversedOneHeap (.obj 0) Mat.empty exInput).m.data =
      MatData.ptr exReversedOne.data ∧
    (pyopencv_to numpyLP64 exReversedOneHeap (.obj 0) Mat.empty exInput).heap.length =
      exReversedOneHeap.length := by
  decide

theorem classifyDtype_needcast (dm : DataModel) (typenum : Int) (dt : Dtype)
    (hdt : classifyDtype dm typenum = some dt) :
    (dt.needcast = true → dt.new_typenum = NPY_INT ∧ dt.type = CV_32S) ∧
    (dt.needcast = false → dt.new_typenum = typenum ∧ dt.type = typenumToDepth dm typenum) ∧
    0 ≤ dt.type ∧ dt.type ≤ 6 := by
  unfold classifyDtype at hdt
  simp only [] at hdt
  split_ifs at hdt with h1 h2
  · simp only [Option.some.injEq] at hdt
    subst hdt
    simp [CV_32S]
  · simp only [Option.some.injEq] at hdt
    subst hdt
    refine ⟨by simp, by simp, by simpa using h1, ?_⟩
    show typenumToDepth dm typenum ≤ 6
    unfold typenumToDepth
    split_ifs <;> simp [CV_8U, CV_8S, CV_16U, CV_16S, CV_32S, CV_32F, CV_64F]

/-- C7, as amended. Resolve decision for a non-output argument (array with an accepted
dtype and a rank that passes the dimensionality test): `pyopencv_to` returns `true` and the
token and data pointer of the matrix are those of (a) the array `PyArray_Cast(oarr, NPY_INT)`
makes, a new object of type `NPY_INT` and the shape of the original, when the copy decision
is true and a promotion is needed, (b) what `PyArray_GETCONTIGUOUS(oarr)` hands back, when
the copy decision is true and no promotion is needed: a newly made copy of the type and
shape of the original (a new object, distinct from `o`) when the array's C-contiguous flag
is clear, and the original object `o` itself, with one more reference and no object made,
when that flag is set, and (c) the original object `o`, whose array fields are unchanged,
when the copy decision is false. -/
theorem C7_resolve_decision (np : Numpy) (h : PyHeap) (o : Nat) (a : NpyArray) (m : Mat)
    (info : ArgInfo) (dt : Dtype)
    (ho : h.val o = PyVal.ndarray a)
    (hdt : classifyDtype np.dataModel a.typenum = some dt)
    (hrank : a.dims.length < CV_MAX_DIM)
    (hout : info.outputarg = false) :
    (pyopencv_to np h (.obj o) m info).ret = true ∧
    (needcopy a (CV_ELEM_SIZE1 dt.type) dt.needcast = true → dt.needcast = true →
      (pyopencv_to np h (.obj o) m info).m.u.map (fun u => u.userdata) =
        some (some (PyArray_Cast np h a NPY_INT).2.1) ∧
      (pyopencv_to np h (.obj o) m info).m.data =
        MatData.ptr (PyArray_Cast np h a NPY_INT).2.2.data ∧
      (pyopencv_to np h (.obj o) m info).heap = (PyArray_Cast np h a NPY_INT).1 ∧
      (PyArray_Cast np h a NPY_INT).2.1 = h.length ∧ h.length ≠ o ∧
      (pyopencv_to np h (.obj o) m info).heap =
        h ++ [{ ob_refcnt := 1,
                val := PyVal.ndarray ((np.cast h a NPY_INT).toArray NPY_INT a.dims) }]) ∧
    (needcopy a (CV_ELEM_SIZE1 dt.type) dt.needcast = true → dt.needcast = false →
      (pyopencv_to np h (.obj o) m info).m.u.map (fun u => u.userdata) =
        some (some (PyArray_GETCONTIGUOUS np h o a).2.1) ∧
      (pyopencv_to np h (.obj o) m info).m.data =
        MatData.ptr (PyArray_GETCONTIGUOUS np h o a).2.2.data ∧
      (pyopencv_to np h (.obj o) m info).heap = (PyArray_GETCONTIGUOUS np h o a).1 ∧
      (a.c_contiguous = false →
        (pyopencv_to np h (.obj o) m info).m.u.map (fun u => u.userdata) =
          some (some h.length) ∧
        h.length ≠ o ∧
        (pyopencv_to np h (.obj o) m info).heap =
          h ++ [{ ob_refcnt := 1,
                  val := PyVal.ndarray ((np.copy h a).toArray a.typenum a.dims) }] ∧
        (pyopencv_to np h (.obj o) m info).m.data = MatData.ptr (np.copy h a).data) ∧
      (a.c_contiguous = true →
        (pyopencv_to np h (.obj o) m info).m.u.map (fun u => u.userdata) = some (some o) ∧
        (pyopencv_to np h (.obj o) m info).heap = Py_INCREF h o ∧
        (pyopencv_to np h (.obj o) m info).heap.length = h.length ∧
        (pyopencv_to np h (.obj o) m info).m.data = MatData.ptr a.data)) ∧
    (needcopy a (CV_ELEM_SIZE1 dt.type) dt.needcast = false →
      (pyopencv_to np h (.obj o) m info).m.u.map (fun u => u.userdata) = some (some o) ∧
      (pyopencv_to np h (.obj o) m info).m.data = MatData.ptr a.data ∧
      (pyopencv_to np h (.obj o) m info).heap = Py_INCREF h o ∧
      (pyopencv_to np h (.obj o) m info).heap.val o = PyVal.ndarray a) := by
  have hout2 : ¬ (needcopy a (CV_ELEM_SIZE1 dt.type) dt.needcast = true ∧
      info.outputarg = true) := by simp [hout]
  have hlen := lt_length_of_val ho
  obtain ⟨hret, -, -, hd, hu, hheap⟩ := arrayTo_ok np h o a m info dt hdt hrank hout2
  rw [pyopencv_to_ndarray np h o a m info ho]
  refine ⟨hret, fun hnc hcast => ?_, fun hnc hcast => ?_, fun hnc => ?_⟩
  · have hnew := ((classifyDtype_needcast _ _ _ hdt).1 hcast).1
    rw [hd, hu, hheap, hnc]
    simp [resolve, hcast, hnew, PyArray_Cast, PyHeap.alloc]
    omega
  · rw [hd, hu, hheap, hnc]
    refine ⟨by simp [resolve, hcast], by simp [resolve, hcast], by simp [resolve, hcast],
      fun hc => ?_, fun hc => ?_⟩
    · simp [resolve, hcast, PyArray_GETCONTIGUOUS, hc, PyHeap.alloc, NpyLayout.toArray]
      omega
    · simp [resolve, hcast, PyArray_GETCONTIGUOUS, hc, Py_INCREF_length]
  · rw [hd, hu, hheap, hnc]
    simp [resolve, val_Py_INCREF, ho]

/-- C7 (amended) at a contiguous array of 64-bit integers, where the cast array is
wrapped; at a reversed view of five doubles, flagged non-contiguous, where a new copy is
wrapped; at a one-element view with a negative stride, flagged contiguous, where the
original is wrapped; and at a contiguous byte array, where the original is wrapped. -/
theorem C7_resolve_decision_witness :
    (exInt64Heap.val 0 = PyVal.ndarray exInt64 ∧
     classifyDtype numpyLP64.dataModel exInt64.typenum = some ⟨CV_32S, true, NPY_INT⟩ ∧
     exInt64.dims.length < CV_MAX_DIM ∧ exInput.outputarg = false ∧
     needcopy exInt64 (CV_ELEM_SIZE1 CV_32S) true = true ∧
     (pyopencv_to numpyLP64 exInt64Heap (.obj 0) Mat.empty exInput).m.u.map
       (fun u => u.userdata) =
         some (some (PyArray_Cast numpyLP64 exInt64Heap exInt64 NPY_INT).2.1) ∧
     (PyArray_Cast numpyLP64 exInt64Heap exInt64 NPY_INT).2.1 = exInt64Heap.length) ∧
    (exReversedHeap.val 0 = PyVal.ndarray exReversed ∧
     classifyDtype numpyLP64.dataModel exReversed.typenum = some ⟨CV_64F, false, NPY_DOUBLE⟩ ∧
     exReversed.dims.length < CV_MAX_DIM ∧
     needcopy exReversed (CV_ELEM_SIZE1 CV_64F) false = true ∧
     exReversed.c_contiguous = false ∧
     (pyopencv_to numpyLP64 exReversedHeap (.obj 0) Mat.empty exInput).m.u.map
       (fun u => u.userdata) = some (some exReversedHeap.length) ∧
     exReversedHeap.length ≠ 0) ∧
    (exReversedOneHeap.val 0 = PyVal.ndarray exReversedOne ∧
     classifyDtype numpyLP64.dataModel exReversedOne.typenum =
       some ⟨CV_64F, false, NPY_DOUBLE⟩ ∧
     exReversedOne.dims.length < CV_MAX_DIM ∧
     needcopy exReversedOne (CV_ELEM_SIZE1 CV_64F) false = true ∧
     exReversedOne.c_contiguous = true ∧
     (pyopencv_to numpyLP64 exReversedOneHeap (.obj 0) Mat.empty exInput).m.u.map
       (fun u => u.userdata) = some (some 0) ∧
     (pyopencv_to numpyLP64 exReversedOneHeap (.obj 0) Mat.empty exInput).heap =
       Py_INCREF exReversedOneHeap 0) ∧
    (exHeap.val 0 = PyVal.ndarray exBytes ∧
     classifyDtype numpyLP64.dataModel exBytes.typenum = some ⟨CV_8U, false, NPY_UBYTE⟩ ∧
     exBytes.dims.length < CV_MAX_DIM ∧
     needcopy exBytes (CV_ELEM_SIZE1 CV_8U) false = false ∧
     (pyopencv_to numpyLP64 exHeap (.obj 0) Mat.empty exInput).m.u.map
       (fun u => u.userdata) = some (some 0) ∧
     (pyopencv_to numpyLP64 exHeap (.obj 0) Mat.empty exInput).m.data =
       MatData.ptr exBytes.data) :=
  have ha := (C7_resolve_decision numpyLP64 exInt64Heap 0 exInt64 Mat.empty exInput
    ⟨CV_32S, true, NPY_INT⟩ (by decide) (by decide) (by decide) rfl).2.1 (by decide) rfl
  have hb := (C7_resolve_decision numpyLP64 exReversedHeap 0 exReversed Mat.empty exInput
    ⟨CV_64F, false, NPY_DOUBLE⟩ (by decide) (by decide) (by decide) rfl).2.2.1 (by decide) rfl
  have hb1 := (C7_resolve_decision numpyLP64 exReversedOneHeap 0 exReversedOne Mat.empty
    exInput ⟨CV_64F, false, NPY_DOUBLE⟩ (by decide) (by decide) (by decide) rfl).2.2.1
    (by decide) rfl
  have hc := (C7_resolve_decision numpyLP64 exHeap 0 exBytes Mat.empty exInput
    ⟨CV_8U, false, NPY_UBYTE⟩ (by decide) (by decide) (by decide) rfl).2.2.2 (by decide)
  ⟨⟨by decide, by decide, by decide, rfl, by decide, ha.1, ha.2.2.2.1⟩,
    ⟨by decide, by decide, by decide, by decide, rfl, (hb.2.2.2.1 rfl).1, (hb.2.2.2.1 rfl).2.1⟩,
    ⟨by decide, by decide, by decide, by decide, rfl, (hb1.2.2.2.2 rfl).1,
      (hb1.2.2.2.2 rfl).2.1⟩,
    ⟨by decide, by decide, by decide, by decide, hc.1, hc.2.1⟩⟩

/-- C7 as stated fails in case (b): for a one-element view of doubles with a negative
stride, which carries numpy's C-contiguous flag, the copy decision is true and no promotion
is needed, yet `PyArray_GETCONTIGUOUS` hands back the original object: the conversion
succeeds with the matrix bound to the original object and pointing at the original buffer,
the heap holds one object as before, and no contiguous copy exists. -/
theorem C7_counterexample :
    exReversedOneHeap.val 0 = PyVal.ndarray exReversedOne ∧
    classifyDtype numpyLP64.dataModel exReversedOne.typenum =
      some ⟨CV_64F, false, NPY_DOUBLE⟩ ∧
    needcopy exReversedOne (CV_ELEM_SIZE1 CV_64F) false = true ∧
    exInput.outputarg = false ∧
    PyArray_GETCONTIGUOUS numpyLP64 exReversedOneHeap 0 exReversedOne =
      (Py_INCREF exReversedOneHeap 0, 0, exReversedOne) ∧
    (pyopencv_to numpyLP64 exReversedOneHeap (.obj 0) Mat.empty exInput).ret = true ∧
    (pyopencv_to numpyLP64 exReversedOneHeap (.obj 0) Mat.empty exInput).m.u.map
      (fun u => u.userdata) = some (some 0) ∧
    (pyopencv_to numpyLP64 exReversedOneHeap (.obj 0) Mat.empty exInput).m.data =
      MatData.ptr exReversedOne.data ∧
    (pyopencv_to numpyLP64 exReversedOneHeap (.obj 0) Mat.empty exInput).heap =
      [{ ob_refcnt := 2, val := PyVal.ndarray exReversedOne }] ∧
    (pyopencv_to numpyLP64 exReversedOneHeap (.obj 0) Mat.empty exInput).heap.length = 1 := by
  decide

/-! ## C8: channel folding -/

theorem lor_low_bits (d c : Int) (hd0 : 0 ≤ d) (hd : d < 8) (hc : 1 ≤ c) :
    Int.lor d ((c - 1) * 8) = d + (c - 1) * 8 := by
  obtain ⟨d', rfl⟩ := Int.eq_ofNat_of_zero_le hd0
  obtain ⟨k, hk⟩ := Int.eq_ofNat_of_zero_le (show 0 ≤ c - 1 by omega)
  rw [hk]
  have hlt : d' < 2 ^ 3 := by omega
  have h := Nat.mul_add_lt_is_or hlt k
  have e : ((k : Int) * 8) = ((k * 8 : Nat) : Int) := by push_cast; rfl
  rw [e]
  show ((d' ||| k * 8 : Nat) : Int) = _
  rw [Nat.lor_comm, Nat.mul_comm k 8]
  have h8 : (2 : Nat) ^ 3 = 8 := by norm_num
  rw [h8] at h
  rw [← h]
  push_cast
  ring

theorem ldiff_zero (n : Nat) : Nat.ldiff n 0 = n := by
  simp [Nat.ldiff]

theorem lor_zero_negSucc (n : Nat) : Int.lor 0 (Int.negSucc n) = Int.negSucc n := by
  show Int.negSucc (Nat.ldiff n 0) = _
  rw [ldiff_zero]

/-- The type code of the matrix at the successful exit of the array path. -/
theorem arrayTo_ok_type (np : Numpy) (h : PyHeap) (o : Nat) (a : NpyArray) (m : Mat)
    (info : ArgInfo) (dt : Dtype)
    (hdt : classifyDtype np.dataModel a.typenum = some dt)
    (hrank : a.dims.length < CV_MAX_DIM)
    (hout : ¬ (needcopy a (CV_ELEM_SIZE1 dt.type) dt.needcast = true ∧ info.outputarg = true)) :
    (arrayTo np h o a m info).m.type =
      CV_MAT_TYPE (if ismultichannel a = true
        then Int.lor dt.type (CV_MAKETYPE 0 (toInt32 (a.dims.getD 2 0))) else dt.type) := by
  have hr : ¬ CV_MAX_DIM ≤ a.dims.length := by omega
  simp only [arrayTo, hdt, hr, hout, if_false]
  by_cases hm : ismultichannel a = true
  · have h3 : a.dims.length = 3 := by
      simp only [ismultichannel, decide_eq_true_eq] at hm
      exact hm.1
    simp [hm, h3, Mat.addref, Mat.header, List.range_succ]
  · simp [hm, Mat.addref, Mat.header]

theorem toInt32_of_range (x : Int) (h0 : 0 ≤ x) (h1 : x < 2147483648) : toInt32 x = x := by
  unfold toInt32
  omega

/-- C8, as amended. Channel folding: for every 3-dimensional array of shape (H, W, C) with
H and W below 2^31, 1 <= C <= CV_CN_MAX and an accepted dtype of depth d, a `pyopencv_to`
that returns `true` leaves a 2-dimensional matrix with sizes (H, W) whose type code has
`CV_MAT_CN(type) = C` and `CV_MAT_DEPTH(type) = d`. -/
theorem C8_channel_folding (np : Numpy) (h : PyHeap) (o : Nat) (a : NpyArray) (m : Mat)
    (info : ArgInfo) (dt : Dtype) (H W C : Int)
    (ho : h.val o = PyVal.ndarray a)
    (hdims : a.dims = [H, W, C])
    (hH : 0 ≤ H ∧ H < 2147483648) (hW : 0 ≤ W ∧ W < 2147483648)
    (hC : 1 ≤ C ∧ C ≤ CV_CN_MAX)
    (hdt : classifyDtype np.dataModel a.typenum = some dt)
    (hret : (pyopencv_to np h (.obj o) m info).ret = true) :
    (pyopencv_to np h (.obj o) m info).m.dims = 2 ∧
    (pyopencv_to np h (.obj o) m info).m.sizes = [H, W] ∧
    CV_MAT_CN (pyopencv_to np h (.obj o) m info).m.type = C ∧
    CV_MAT_DEPTH (pyopencv_to np h (.obj o) m info).m.type = dt.type := by
  rw [pyopencv_to_ndarray np h o a m info ho] at hret ⊢
  obtain ⟨-, -, hd0, hd6⟩ := classifyDtype_needcast _ _ _ hdt
  have hmulti : ismultichannel a = true := by
    simp [ismultichannel, hdims, hC.2]
  have hC3 : toInt32 C = C := toInt32_of_range C (by omega) (by unfold CV_CN_MAX at hC; omega)
  have hlor := lor_low_bits dt.type C hd0 (by omega) hC.1
  by_cases hout : needcopy a (CV_ELEM_SIZE1 dt.type) dt.needcast = true ∧ info.outputarg = true
  · simp [arrayTo_output_rejected np h o a m info dt hdt (by simp [hdims, CV_MAX_DIM])
      hout.1 hout.2] at hret
  · have hr : ¬ CV_MAX_DIM ≤ a.dims.length := by simp [hdims, CV_MAX_DIM]
    simp only [arrayTo, hdt, hr, hout, if_false]
    simp only [hmulti, hdims, List.length_cons, List.length_nil]
    simp [Mat.addref, Mat.header, List.range_succ, toInt32_of_range H hH.1 hH.2,
      toInt32_of_range W hW.1 hW.2, hC3, CV_MAKETYPE, CV_MAT_DEPTH, hlor, CV_MAT_TYPE, CV_MAT_CN]
    unfold CV_CN_MAX at hC
    omega

/-- C8 (amended) at a 2 x 2 image of three byte channels. -/
theorem C8_channel_folding_witness :
    exRGBHeap.val 0 = PyVal.ndarray exRGB ∧ exRGB.dims = [2, 2, 3] ∧
    classifyDtype numpyLP64.dataModel exRGB.typenum = some ⟨CV_8U, false, NPY_UBYTE⟩ ∧
    (pyopencv_to numpyLP64 exRGBHeap (.obj 0) Mat.empty exInput).ret = true ∧
    (pyopencv_to numpyLP64 exRGBHeap (.obj 0) Mat.empty exInput).m.sizes = [2, 2] ∧
    CV_MAT_CN (pyopencv_to numpyLP64 exRGBHeap (.obj 0) Mat.empty exInput).m.type = 3 :=
  have hthm := C8_channel_folding numpyLP64 exRGBHeap 0 exRGB Mat.empty exInput
    ⟨CV_8U, false, NPY_UBYTE⟩ 2 2 3 (by decide) (by decide) (by decide) (by decide)
    (by decide) (by decide) (by decide)
  ⟨by decide, by decide, by decide, by decide, hthm.2.1, hthm.2.2.1⟩

/-- C8 as stated fails twice.  A (2, 2, 0) byte array has C = 0 <= CV_CN_MAX, converts
successfully and gets a type code of 512 channels, not 0.  A (2^32 + 5, 0, 3) byte array
converts successfully into a matrix of sizes (5, 0), not (2^32 + 5, 0). -/
theorem C8_counterexample :
    (exNoChannelHeap.val 0 = PyVal.ndarray exNoChannel ∧
      (pyopencv_to numpyLP64 exNoChannelHeap (.obj 0) Mat.empty exInput).ret = true ∧
      CV_MAT_CN (pyopencv_to numpyLP64 exNoChannelHeap (.obj 0) Mat.empty exInput).m.type
        = 512) ∧
    (exTallHeap.val 0 = PyVal.ndarray exTall ∧
      (pyopencv_to numpyLP64 exTallHeap (.obj 0) Mat.empty exInput).ret = true ∧
      (pyopencv_to numpyLP64 exTallHeap (.obj 0) Mat.empty exInput).m.sizes = [5, 0]) := by
  refine ⟨⟨by decide, by decide, ?_⟩, ⟨by decide, by decide, by decide⟩⟩
  rw [pyopencv_to_ndarray numpyLP64 exNoChannelHeap 0 exNoChannel Mat.empty exInput (by decide),
    arrayTo_ok_type numpyLP64 exNoChannelHeap 0 exNoChannel Mat.empty exInput
      ⟨CV_8U, false, NPY_UBYTE⟩ (by decide) (by decide) (by decide)]
  have hm : ismultichannel exNoChannel = true := by decide
  have hk : CV_MAKETYPE 0 (toInt32 (exNoChannel.dims.getD 2 0)) = Int.negSucc 7 := by decide
  rw [if_pos hm, hk]
  show CV_MAT_CN (CV_MAT_TYPE (Int.lor 0 (Int.negSucc 7))) = 512
  rw [lor_zero_negSucc]
  decide

/-! ## C9: dimensionality ceiling -/

/-- C9, as amended. Dimensionality ceiling: for every array with an accepted dtype,
`pyopencv_to` rejects it for dimensionality exactly when its rank is at least `CV_MAX_DIM`
(every rank up to `CV_MAX_DIM - 1` passes the test); the rejection returns `false` with the
error carrying the parameter name and the rank, and the heap and `m` are as before the
call: no cast, copy or token was made. -/
theorem C9_dimensionality_ceiling (np : Numpy) (h : PyHeap) (o : Nat) (a : NpyArray) (m : Mat)
    (info : ArgInfo) (dt : Dtype)
    (ho : h.val o = PyVal.ndarray a)
    (hdt : classifyDtype np.dataModel a.typenum = some dt) :
    (CV_MAX_DIM ≤ a.dims.length →
      pyopencv_to np h (.obj o) m info =
        { ret := false, m := m, heap := h,
          err := some (failmsg "%s dimensionality (=%d) is too high"
            [FmtArg.str info.name, FmtArg.int a.dims.length]) }) ∧
    (a.dims.length < CV_MAX_DIM →
      (pyopencv_to np h (.obj o) m info).err ≠
        some (failmsg "%s dimensionality (=%d) is too high"
          [FmtArg.str info.name, FmtArg.int a.dims.length])) := by
  rw [pyopencv_to_ndarray np h o a m info ho]
  constructor
  · intro hge
    simp [arrayTo, hdt, hge]
  · intro hlt
    by_cases hout : needcopy a (CV_ELEM_SIZE1 dt.type) dt.needcast = true ∧ info.outputarg = true
    · rw [arrayTo_output_rejected np h o a m info dt hdt hlt hout.1 hout.2]
      simp [failmsg]
    · rw [(arrayTo_ok np h o a m info dt hdt hlt hout).2.1]
      simp

/-- C9 (amended) at a byte array of rank 32. -/
theorem C9_dimensionality_ceiling_witness :
    exRank32Heap.val 0 = PyVal.ndarray exRank32 ∧
    classifyDtype numpyLP64.dataModel exRank32.typenum = some ⟨CV_8U, false, NPY_UBYTE⟩ ∧
    CV_MAX_DIM ≤ exRank32.dims.length ∧
    pyopencv_to numpyLP64 exRank32Heap (.obj 0) Mat.empty exInput =
      { ret := false, m := Mat.empty, heap := exRank32Heap,
        err := some (failmsg "%s dimensionality (=%d) is too high"
          [FmtArg.str "src", FmtArg.int 32]) } :=
  ⟨by decide, by decide, by decide,
    (C9_dimensionality_ceiling numpyLP64 exRank32Heap 0 exRank32 Mat.empty exInput
      ⟨CV_8U, false, NPY_UBYTE⟩ (by decide) (by decide)).1 (by decide)⟩

/-- C9 as stated fails: a byte array of rank 32 has a rank that is not greater than
`CV_MAX_DIM`, and it is rejected with the dimensionality error. -/
theorem C9_counterexample :
    exRank32Heap.val 0 = PyVal.ndarray exRank32 ∧
    ¬ ((exRank32.dims.length : Nat) > CV_MAX_DIM) ∧
    (pyopencv_to numpyLP64 exRank32Heap (.obj 0) Mat.empty exInput).ret = false ∧
    (pyopencv_to numpyLP64 exRank32Heap (.obj 0) Mat.empty exInput).err =
      some (failmsg "%s dimensionality (=%d) is too high" [FmtArg.str "src", FmtArg.int 32]) := by
  decide

/-! ## C10: scalars and tuples -/

theorem PyInt_AsLong_of_isLong (dm : DataModel) (v : Int) (hv : isLong dm v) :
    PyInt_AsLong dm v = v := by
  simp [PyInt_AsLong, hv]

theorem PyInt_AsLong_err_of_isLong (dm : DataModel) (v : Int) (e : Option PyErr)
    (hv : isLong dm v) : PyInt_AsLong_err dm v e = e := by
  simp [PyInt_AsLong_err, hv]

theorem tupleLoop_ok (dm : DataModel) (h : PyHeap) (items : List Nat) :
    ∀ (n i : Nat) (m : Mat) (vs : List CDouble) (e : Option PyErr), m.data = MatData.owned vs →
      i + n ≤ vs.length →
      (∀ j, i ≤ j → j < i + n → (itemDouble h (items.getD j 0)).isSome = true) →
      (∀ j, i ≤ j → j < i + n → itemInRange dm h (items.getD j 0)) →
      (tupleLoop dm h items n i m e).1 = true ∧
      (tupleLoop dm h items n i m e).2.2 = e ∧
      (tupleLoop dm h items n i m e).2.1.dims = m.dims ∧
      (tupleLoop dm h items n i m e).2.1.sizes = m.sizes ∧
      (tupleLoop dm h items n i m e).2.1.type = m.type ∧
      ∃ vs1, (tupleLoop dm h items n i m e).2.1.data = MatData.owned vs1 ∧
        (∀ j, i ≤ j → j < i + n → vs1[j]? = itemDouble h (items.getD j 0)) ∧
        (∀ j, j < i → vs1[j]? = vs[j]?) := by
  intro n
  induction n with
  | zero =>
    intro i m vs e hm _ _ _
    exact ⟨rfl, rfl, rfl, rfl, rfl, vs, hm, fun j h1 h2 => absurd h2 (by omega),
      fun _ _ => rfl⟩
  | succ n ih =>
    intro i m vs e hm hlen hnum hrange
    have hi := hnum i (Nat.le_refl i) (by omega)
    have hri := hrange i (Nat.le_refl i) (by omega)
    have key : ∀ x : CDouble, itemDouble h (items.getD i 0) = some x →
        (tupleLoop dm h items n (i + 1) (m.setAt i x) e).1 = true ∧
        (tupleLoop dm h items n (i + 1) (m.setAt i x) e).2.2 = e ∧
        (tupleLoop dm h items n (i + 1) (m.setAt i x) e).2.1.dims = m.dims ∧
        (tupleLoop dm h items n (i + 1) (m.setAt i x) e).2.1.sizes = m.sizes ∧
        (tupleLoop dm h items n (i + 1) (m.setAt i x) e).2.1.type = m.type ∧
        ∃ vs1, (tupleLoop dm h items n (i + 1) (m.setAt i x) e).2.1.data = MatData.owned vs1 ∧
          (∀ j, i ≤ j → j < i + (n + 1) → vs1[j]? = itemDouble h (items.getD j 0)) ∧
          (∀ j, j < i → vs1[j]? = vs[j]?) := by
      intro x hx
      have hm1 : (m.setAt i x).data = MatData.owned (vs.set i x) := by
        simp [Mat.setAt, hm]
      obtain ⟨h1, he, h2, h3, h4, vs1, h5, h6, h7⟩ :=
        ih (i + 1) (m.setAt i x) (vs.set i x) e hm1
          (by simp; omega) (fun j hj1 hj2 => hnum j (by omega) (by omega))
          (fun j hj1 hj2 => hrange j (by omega) (by omega))
      have hd : (m.setAt i x).dims = m.dims ∧ (m.setAt i x).sizes = m.sizes ∧
          (m.setAt i x).type = m.type := by simp [Mat.setAt, hm]
      refine ⟨h1, he, h2.trans hd.1, h3.trans hd.2.1, h4.trans hd.2.2, vs1, h5, ?_, ?_⟩
      · intro j hj1 hj2
        rcases Nat.eq_or_lt_of_le hj1 with heq | hlt
        · subst heq
          rw [h7 i (Nat.lt_succ_self i), hx]
          simp [List.getElem?_set]
          omega
        · exact h6 j (by omega) (by omega)
      · intro j hj
        rw [h7 j (by omega)]
        simp [List.getElem?_set]
        omega
    rw [tupleLoop]
    cases hv : h.val (items.getD i 0) with
    | int v =>
      simp only []
      have hl : isLong dm v := by
        have hr := hri
        rw [itemInRange, hv] at hr
        exact hr
      rw [PyInt_AsLong_of_isLong dm v hl, PyInt_AsLong_err_of_isLong dm v e hl]
      exact key _ (by rw [itemDouble, hv])
    | float d => exact key _ (by rw [itemDouble, hv])
    | tuple t => rw [itemDouble, hv] at hi; exact absurd hi (by simp)
    | ndarray a => rw [itemDouble, hv] at hi; exact absurd hi (by simp)
    | other => rw [itemDouble, hv] at hi; exact absurd hi (by simp)

theorem tupleLoop_fail (dm : DataModel) (h : PyHeap) (items : List Nat) :
    ∀ (n i : Nat) (m : Mat) (e : Option PyErr),
      (∃ j, i ≤ j ∧ j < i + n ∧ itemDouble h (items.getD j 0) = Option.none) →
      (tupleLoop dm h items n i m e).1 = false := by
  intro n
  induction n with
  | zero =>
    rintro i m e ⟨j, h1, h2, -⟩
    omega
  | succ n ih =>
    rintro i m e ⟨j, h1, h2, h3⟩
    rw [tupleLoop]
    cases hv : h.val (items.getD i 0) with
    | int v =>
      simp only []
      apply ih
      refine ⟨j, ?_, by omega, h3⟩
      rcases Nat.eq_or_lt_of_le h1 with heq | hlt
      · subst heq
        rw [itemDouble, hv] at h3
        exact absurd h3 (by simp)
      · omega
    | float d =>
      simp only []
      apply ih
      refine ⟨j, ?_, by omega, h3⟩
      rcases Nat.eq_or_lt_of_le h1 with heq | hlt
      · subst heq
        rw [itemDouble, hv] at h3
        exact absurd h3 (by simp)
      · omega
    | tuple t => rfl
    | ndarray a => rfl
    | other => rfl

theorem toInt32_length (k : Nat) (hk : k < 2147483648) :
    toInt32 (k : Int) = (k : Int) := toInt32_of_range _ (by omega) (by omega)

/-- C10, as amended. Scalar/tuple paths of `pyopencv_to`: a bare int `v` in the range of a
C `long`, or a bare float `v`, yields a 4 x 1 single-channel 64-bit-float matrix with
elements `[(double)v, 0., 0., 0.]` and no error pending; a tuple of `k < 2^31` ints/floats,
the ints in the range of a C `long`, yields a `k x 1` single-channel 64-bit-float matrix
whose `i`-th element is the `i`-th tuple item as a double, for every `i < k`, and no error
pending; a tuple of `k < 2^31` items one of which is neither int nor float makes the
conversion return `false` with the "not a numerical tuple" error, the matrix released: no
token, null data, sizes zeroed. -/
theorem C10_scalar_tuple_paths (np : Numpy) (h : PyHeap) (o : Nat) (m : Mat) (info : ArgInfo) :
    (∀ v, h.val o = PyVal.int v → isLong np.dataModel v →
      (pyopencv_to np h (.obj o) m info).ret = true ∧
      (pyopencv_to np h (.obj o) m info).err = Option.none ∧
      (pyopencv_to np h (.obj o) m info).m.dims = 2 ∧
      (pyopencv_to np h (.obj o) m info).m.sizes = [4, 1] ∧
      CV_MAT_CN (pyopencv_to np h (.obj o) m info).m.type = 1 ∧
      CV_MAT_DEPTH (pyopencv_to np h (.obj o) m info).m.type = CV_64F ∧
      (pyopencv_to np h (.obj o) m info).m.data =
        MatData.owned [CDouble.ofLong v, CDouble.bits 0, CDouble.bits 0, CDouble.bits 0]) ∧
    (∀ d, h.val o = PyVal.float d →
      (pyopencv_to np h (.obj o) m info).ret = true ∧
      (pyopencv_to np h (.obj o) m info).err = Option.none ∧
      (pyopencv_to np h (.obj o) m info).m.dims = 2 ∧
      (pyopencv_to np h (.obj o) m info).m.sizes = [4, 1] ∧
      CV_MAT_CN (pyopencv_to np h (.obj o) m info).m.type = 1 ∧
      CV_MAT_DEPTH (pyopencv_to np h (.obj o) m info).m.type = CV_64F ∧
      (pyopencv_to np h (.obj o) m info).m.data =
        MatData.owned [d, CDouble.bits 0, CDouble.bits 0, CDouble.bits 0]) ∧
    (∀ items, h.val o = PyVal.tuple items → items.length < 2147483648 →
      ((∀ i, i < items.length → (itemDouble h (items.getD i 0)).isSome = true) →
        (∀ i, i < items.length → itemInRange np.dataModel h (items.getD i 0)) →
        (pyopencv_to np h (.obj o) m info).ret = true ∧
        (pyopencv_to np h (.obj o) m info).err = Option.none ∧
        (pyopencv_to np h (.obj o) m info).m.dims = 2 ∧
        (pyopencv_to np h (.obj o) m info).m.sizes = [(items.length : Int), 1] ∧
        CV_MAT_CN (pyopencv_to np h (.obj o) m info).m.type = 1 ∧
        CV_MAT_DEPTH (pyopencv_to np h (.obj o) m info).m.type = CV_64F ∧
        (∀ i, i < items.length →
          (pyopencv_to np h (.obj o) m info).m.at i = itemDouble h (items.getD i 0))) ∧
      ((∃ i, i < items.length ∧ itemDouble h (items.getD i 0) = Option.none) →
        (pyopencv_to np h (.obj o) m info).ret = false ∧
        (pyopencv_to np h (.obj o) m info).err =
          some (failmsg "%s is not a numerical tuple" [FmtArg.str info.name]) ∧
        (pyopencv_to np h (.obj o) m info).heap = h ∧
        (pyopencv_to np h (.obj o) m info).m.u = Option.none ∧
        (pyopencv_to np h (.obj o) m info).m.data.isNull = true ∧
        (∀ s ∈ (pyopencv_to np h (.obj o) m info).m.sizes, s = 0))) := by
  refine ⟨fun v hv hl => ?_, fun d hd => ?_,
    fun items hi hk => ⟨fun hnum hrange => ?_, fun hbad => ?_⟩⟩
  · simp [pyopencv_to, hv, Mat.column, CV_MAT_CN, CV_MAT_DEPTH, CV_64F,
      PyInt_AsLong_of_isLong _ v hl, PyInt_AsLong_err_of_isLong _ v Option.none hl]
  · simp [pyopencv_to, hd, Mat.column, CV_MAT_CN, CV_MAT_DEPTH, CV_64F]
  · have hsz := toInt32_length items.length hk
    simp only [pyopencv_to, hi, hsz, Int.toNat_ofNat]
    by_cases hk0 : items.length = 0
    · have hnil : items = [] := List.length_eq_zero.mp hk0
      subst hnil
      simp [tupleLoop, Mat.column, CV_MAT_CN, CV_MAT_DEPTH, CV_64F]
    · have hne : List.replicate items.length CDouble.uninit ≠ [] := by
        intro hc
        have := congrArg List.length hc
        rw [List.length_replicate] at this
        exact hk0 this
      have hm0 : (Mat.column (items.length : Int)
          (List.replicate items.length CDouble.uninit)).data =
          MatData.owned (List.replicate items.length CDouble.uninit) := by
        simp [Mat.column, hne]
      obtain ⟨h1, he, h2, h3, h4, vs1, h5, h6, -⟩ :=
        tupleLoop_ok np.dataModel h items items.length 0 _ _ Option.none hm0
          (by simp) (fun j _ hj => hnum j (by omega)) (fun j _ hj => hrange j (by omega))
      rw [if_pos h1]
      simp only []
      refine ⟨trivial, he, ?_, ?_, ?_, ?_, ?_⟩
      · rw [h2]; simp [Mat.column, hne]
      · rw [h3]; simp [Mat.column, hne]
      · rw [h4]; simp [Mat.column, hne, CV_MAT_CN, CV_64F]
      · rw [h4]; simp [Mat.column, hne, CV_MAT_DEPTH, CV_64F]
      · intro i hlt
        unfold Mat.at
        rw [h5]
        exact h6 i (Nat.zero_le i) (by omega)
  · have hsz := toInt32_length items.length hk
    obtain ⟨j, hj, hjn⟩ := hbad
    have hf := tupleLoop_fail np.dataModel h items items.length 0
      (Mat.column (items.length : Int) (List.replicate items.length CDouble.uninit))
      Option.none ⟨j, Nat.zero_le j, by omega, hjn⟩
    simp only [pyopencv_to, hi, hsz, Int.toNat_ofNat, hf]
    simp [Mat.release, MatData.isNull]

/-- C10 (amended) at the int 7, the float of bit pattern 99, the tuple (7, 99.) and the
tuple (7, x) with x not a number. -/
theorem C10_scalar_tuple_paths_witness :
    exScalars.val 0 = PyVal.int 7 ∧ isLong numpyLP64.dataModel 7 ∧ exScalars.val 1 = PyVal.float (CDouble.bits 99) ∧
    exScalars.val 2 = PyVal.tuple [0, 1] ∧ exScalars.val 5 = PyVal.tuple [0, 4] ∧
    (pyopencv_to numpyLP64 exScalars (.obj 0) Mat.empty exInput).m.data =
      MatData.owned [CDouble.ofLong 7, CDouble.bits 0, CDouble.bits 0, CDouble.bits 0] ∧
    (pyopencv_to numpyLP64 exScalars (.obj 1) Mat.empty exInput).m.data =
      MatData.owned [CDouble.bits 99, CDouble.bits 0, CDouble.bits 0, CDouble.bits 0] ∧
    (pyopencv_to numpyLP64 exScalars (.obj 2) Mat.empty exInput).m.at 1 =
      itemDouble exScalars ([0, 1].getD 1 0) ∧
    (pyopencv_to numpyLP64 exScalars (.obj 5) Mat.empty exInput).ret = false :=
  ⟨by decide, by decide, by decide, by decide, by decide,
    ((C10_scalar_tuple_paths numpyLP64 exScalars 0 Mat.empty exInput).1 7 (by decide)
      (by decide)).2.2.2.2.2.2,
    ((C10_scalar_tuple_paths numpyLP64 exScalars 1 Mat.empty exInput).2.1 (CDouble.bits 99)
      (by decide)).2.2.2.2.2.2,
    (((C10_scalar_tuple_paths numpyLP64 exScalars 2 Mat.empty exInput).2.2 [0, 1] (by decide)
      (by decide)).1 (by decide) (by decide)).2.2.2.2.2.2 1 (by decide),
    (((C10_scalar_tuple_paths numpyLP64 exScalars 5 Mat.empty exInput).2.2 [0, 4] (by decide)
      (by decide)).2 ⟨1, by decide, by decide⟩).1⟩

theorem getD_replicate_zero (n i : Nat) : (List.replicate n 0).getD i 0 = 0 := by
  rw [List.getD_eq_getElem?_getD, List.getElem?_replicate]
  split <;> rfl

theorem tupleLoop_succ_int (dm : DataModel) (h : PyHeap) (items : List Nat) (n i : Nat)
    (m : Mat) (v : Int) (e : Option PyErr) (hv : h.val (items.getD i 0) = PyVal.int v) :
    tupleLoop dm h items (n + 1) i m e =
      tupleLoop dm h items n (i + 1) (m.setAt i (CDouble.ofLong (PyInt_AsLong dm v)))
        (PyInt_AsLong_err dm v e) := by
  rw [tupleLoop, hv]

/-- C10 as stated fails, twice. A tuple of k = 2^32 + 2 ints converts successfully into a
2 x 1 matrix holding two elements, not into a k x 1 matrix holding the k items. And the
bare int 2^70 converts successfully into the column `[-1., 0., 0., 0.]`, with the
`OverflowError` of `PyInt_AsLong` left pending, not into `[(double)v, 0., 0., 0.]`. -/
theorem C10_counterexample :
    (exLongTuple.val 1 = PyVal.tuple (List.replicate 4294967298 0) ∧
     (List.replicate 4294967298 0).length = 4294967298 ∧
     exLongTuple.val 0 = PyVal.int 0 ∧
     (pyopencv_to numpyLP64 exLongTuple (.obj 1) Mat.empty exInput).ret = true ∧
     (pyopencv_to numpyLP64 exLongTuple (.obj 1) Mat.empty exInput).m.sizes = [2, 1] ∧
     (pyopencv_to numpyLP64 exLongTuple (.obj 1) Mat.empty exInput).m.data =
       MatData.owned [CDouble.ofLong 0, CDouble.ofLong 0] ∧
     (pyopencv_to numpyLP64 exLongTuple (.obj 1) Mat.empty exInput).m.at 2 = Option.none) ∧
    (exBigInt.val 0 = PyVal.int 1180591620717411303424 ∧
     (pyopencv_to numpyLP64 exBigInt (.obj 0) Mat.empty exInput).ret = true ∧
     (pyopencv_to numpyLP64 exBigInt (.obj 0) Mat.empty exInput).m.sizes = [4, 1] ∧
     (pyopencv_to numpyLP64 exBigInt (.obj 0) Mat.empty exInput).m.data =
       MatData.owned [CDouble.ofLong (-1), CDouble.bits 0, CDouble.bits 0, CDouble.bits 0] ∧
     (pyopencv_to numpyLP64 exBigInt (.obj 0) Mat.empty exInput).m.data ≠
       MatData.owned [CDouble.ofLong 1180591620717411303424, CDouble.bits 0, CDouble.bits 0,
         CDouble.bits 0] ∧
     (pyopencv_to numpyLP64 exBigInt (.obj 0) Mat.empty exInput).err =
       some PyErr.overflowError) := by
  have hv : exLongTuple.val 1 = PyVal.tuple (List.replicate 4294967298 0) := rfl
  have h0 : exLongTuple.val 0 = PyVal.int 0 := rfl
  have hsz : toInt32 ((List.replicate 4294967298 0 : List Nat).length : Int) = 2 := by
    rw [List.length_replicate]
    decide
  have hto : (2 : Int).toNat = 2 := rfl
  have hr : pyopencv_to numpyLP64 exLongTuple (.obj 1) Mat.empty exInput =
      { ret := true,
        m := ((Mat.column 2 [CDouble.uninit, CDouble.uninit]).setAt 0 (CDouble.ofLong 0)).setAt 1
          (CDouble.ofLong 0),
        heap := exLongTuple, err := Option.none } := by
    have hitem : ∀ i, exLongTuple.val ((List.replicate 4294967298 0).getD i 0) = PyVal.int 0 := by
      intro i
      rw [getD_replicate_zero]
      exact h0
    have hloop : tupleLoop DataModel.lp64 exLongTuple (List.replicate 4294967298 0) (0 + 1 + 1) 0
        (Mat.column 2 [CDouble.uninit, CDouble.uninit]) Option.none =
        (true, ((Mat.column 2 [CDouble.uninit, CDouble.uninit]).setAt 0
          (CDouble.ofLong 0)).setAt 1 (CDouble.ofLong 0), Option.none) := by
      rw [tupleLoop_succ_int _ _ _ _ _ _ 0 _ (hitem 0),
        tupleLoop_succ_int _ _ _ _ _ _ 0 _ (hitem 1)]
      rfl
    simp only [pyopencv_to, hv, hsz]
    rw [hto]
    exact (congrArg (fun r : Bool × Mat × Option PyErr =>
      (if r.1 = true then
        ({ ret := true, m := r.2.1, heap := exLongTuple, err := r.2.2 } : ToResult)
      else
        { ret := false, m := r.2.1.release, heap := exLongTuple,
          err := some (failmsg "%s is not a numerical tuple" [FmtArg.str exInput.name]) }))
      hloop).trans rfl
  refine ⟨?_, by decide, by decide, by decide, by decide, by decide, by decide⟩
  rw [hr]
  exact ⟨hv, List.length_replicate _ _, rfl, rfl, rfl, rfl, rfl⟩

/-! ## C11: outbound conversion -/

theorem allocateFresh_ok (np : Numpy) (h : PyHeap) (dims0 : Int) (sizes : List Int)
    (type : Int) (step : List Nat) (l : NpyLayout) (arr : NpyArray)
    (hl : np.simpleNew h (NumpyAllocator.newShape dims0 sizes type)
      (depthToTypenum (CV_MAT_DEPTH type)) = some l)
    (harr : arr = l.toArray (depthToTypenum (CV_MAT_DEPTH type))
      (NumpyAllocator.newShape dims0 sizes type)) :
    NumpyAllocator.allocateFresh np h dims0 sizes type 0 step =
      Except.ok (h ++ [{ ob_refcnt := 1, val := PyVal.ndarray arr }],
        (NumpyAllocator.allocate h.length arr dims0 sizes type step).1,
        (NumpyAllocator.allocate h.length arr dims0 sizes type step).2) := by
  subst harr
  unfold NumpyAllocator.newShape at hl
  simp only [NumpyAllocator.allocateFresh, ne_eq, not_true_eq_false, if_false,
    PyArray_SimpleNew, PyHeap.alloc, hl, NumpyAllocator.newShape]

theorem allocateFresh_fail (np : Numpy) (h : PyHeap) (dims0 : Int) (sizes : List Int)
    (type : Int) (step : List Nat)
    (hl : np.simpleNew h (NumpyAllocator.newShape dims0 sizes type)
      (depthToTypenum (CV_MAT_DEPTH type)) = Option.none) :
    NumpyAllocator.allocateFresh np h dims0 sizes type 0 step =
      Except.error (CvException.StsError
        "The numpy array of typenum=%d, ndims=%d can not be created"
        [FmtArg.int (depthToTypenum (CV_MAT_DEPTH type)),
         FmtArg.int (NumpyAllocator.newDims dims0 type)]) := by
  unfold NumpyAllocator.newShape at hl
  simp only [NumpyAllocator.allocateFresh, ne_eq, not_true_eq_false, if_false,
    PyArray_SimpleNew, hl, NumpyAllocator.newDims]

/-- C11. Outbound conversion `pyopencv_from(m)`: it returns `None` and touches nothing
when `m` has no data.  Otherwise, when `m` has no token or its allocator is not the bridge
allocator, it has the bridge allocate a matrix for the copy: if `PyArray_SimpleNew` makes
the array asked for (of the type number of the depth of `m` and the shape of `m`, channels
last), that is one new array object, the elements of `m` are copied into its buffer, and
that object is returned; if `PyArray_SimpleNew` fails, `NULL` is returned with the
`StsError` exception turned into the pending error, and nothing is made or copied.  And
when `m` has a token bound to a foreign object `o` and the bridge allocator, it returns `o`
itself and makes and copies nothing.  In both cases where an object is returned, it has, at
the `return`, exactly one reference more than before the increment (the new array then has
2, of which the destruction of the local copy takes one back). -/
theorem C11_outbound_conversion (np : Numpy) (h : PyHeap) (m : Mat) :
    (m.data.isNull = true →
      pyopencv_from np h m =
        { ret := PyRef.none, atReturn := h, heap := h, err := Option.none,
          copied := Option.none }) ∧
    (m.data.isNull = false → m.u = Option.none ∨ m.allocator ≠ some Allocator.numpy →
      (∀ l : NpyLayout,
        np.simpleNew h (NumpyAllocator.newShape m.dims m.sizes m.type)
          (depthToTypenum (CV_MAT_DEPTH m.type)) = some l →
        ∃ arr : NpyArray,
          arr = l.toArray (depthToTypenum (CV_MAT_DEPTH m.type))
            (NumpyAllocator.newShape m.dims m.sizes m.type) ∧
          NumpyAllocator.allocateFresh np h m.dims m.sizes m.type 0 m.step =
            Except.ok (h ++ [{ ob_refcnt := 1, val := PyVal.ndarray arr }],
              (NumpyAllocator.allocate h.length arr m.dims m.sizes m.type m.step).1,
              (NumpyAllocator.allocate h.length arr m.dims m.sizes m.type m.step).2) ∧
          (NumpyAllocator.allocate h.length arr m.dims m.sizes m.type m.step).1.userdata =
            some h.length ∧
          h.val h.length = PyVal.other ∧
          (pyopencv_from np h m).ret = PyRef.obj h.length ∧
          (pyopencv_from np h m).err = Option.none ∧
          (pyopencv_from np h m).copied = some (m.data, MatData.ptr arr.data) ∧
          (pyopencv_from np h m).atReturn =
            Py_INCREF (h ++ [{ ob_refcnt := 1, val := PyVal.ndarray arr }]) h.length ∧
          (pyopencv_from np h m).atReturn.val h.length = PyVal.ndarray arr ∧
          (pyopencv_from np h m).atReturn.refcnt h.length =
            PyHeap.refcnt (h ++ [{ ob_refcnt := 1, val := PyVal.ndarray arr }]) h.length + 1 ∧
          (pyopencv_from np h m).atReturn.refcnt h.length = 2 ∧
          (pyopencv_from np h m).heap.refcnt h.length = 1 ∧
          (∀ j, j < h.length → (pyopencv_from np h m).heap.refcnt j = h.refcnt j)) ∧
      (np.simpleNew h (NumpyAllocator.newShape m.dims m.sizes m.type)
          (depthToTypenum (CV_MAT_DEPTH m.type)) = Option.none →
        pyopencv_from np h m =
          { ret := PyRef.null, atReturn := h, heap := h,
            err := some (CvException.StsError
              "The numpy array of typenum=%d, ndims=%d can not be created"
              [FmtArg.int (depthToTypenum (CV_MAT_DEPTH m.type)),
               FmtArg.int (NumpyAllocator.newDims m.dims m.type)]),
            copied := Option.none })) ∧
    (m.data.isNull = false →
      ∀ (u : UMatData) (o : Nat), m.u = some u → m.allocator = some Allocator.numpy →
        u.userdata = some o →
        (pyopencv_from np h m).ret = PyRef.obj o ∧
        (pyopencv_from np h m).err = Option.none ∧
        (pyopencv_from np h m).copied = Option.none ∧
        (pyopencv_from np h m).atReturn = Py_INCREF h o ∧
        (pyopencv_from np h m).heap = Py_INCREF h o ∧
        (pyopencv_from np h m).heap.length = h.length ∧
        (o < h.length → (pyopencv_from np h m).atReturn.refcnt o = h.refcnt o + 1)) := by
  refine ⟨fun hnull => ?_, fun hdata hcopy => ⟨fun l hl => ?_, fun hl => ?_⟩,
    fun hdata u o hu halloc hud => ?_⟩
  · simp [pyopencv_from, hnull]
  · have hfresh := allocateFresh_ok np h m.dims m.sizes m.type m.step l _ hl rfl
    generalize l.toArray (depthToTypenum (CV_MAT_DEPTH m.type))
      (NumpyAllocator.newShape m.dims m.sizes m.type) = arr at hfresh ⊢
    have hud : (NumpyAllocator.allocate h.length arr m.dims m.sizes m.type m.step).1.userdata =
        some h.length := by simp [NumpyAllocator.allocate]
    have hdat : (NumpyAllocator.allocate h.length arr m.dims m.sizes m.type m.step).1.data =
        MatData.ptr arr.data := by simp [NumpyAllocator.allocate]
    have hnew : h.val h.length = PyVal.other := by
      have : h[h.length]? = Option.none := List.getElem?_eq_none (Nat.le_refl _)
      simp [PyHeap.val, this]
    have hlt : h.length < (h ++ [({ ob_refcnt := 1, val := PyVal.ndarray arr } :
        PyObject)]).length := by simp
    have hr1 : PyHeap.refcnt (h ++ [({ ob_refcnt := 1, val := PyVal.ndarray arr } :
        PyObject)]) h.length = 1 := by simp [PyHeap.refcnt]
    have hv1 : PyHeap.val (h ++ [({ ob_refcnt := 1, val := PyVal.ndarray arr } :
        PyObject)]) h.length = PyVal.ndarray arr := by simp [PyHeap.val]
    have hfrom : pyopencv_from np h m =
        { ret := PyRef.obj h.length,
          atReturn := Py_INCREF (h ++ [{ ob_refcnt := 1, val := PyVal.ndarray arr }]) h.length,
          heap := Py_DECREF
            (Py_INCREF (h ++ [{ ob_refcnt := 1, val := PyVal.ndarray arr }]) h.length) h.length,
          err := Option.none,
          copied := some (m.data, MatData.ptr arr.data) } := by
      simp only [pyopencv_from, hdata, Bool.false_eq_true, if_false, hcopy, if_true, hfresh,
        hud, hdat, NumpyAllocator.deallocate, Py_XDECREF]
    refine ⟨arr, rfl, hfresh, hud, hnew, ?_, ?_, ?_, ?_, ?_, ?_, ?_, ?_, ?_⟩
    · rw [hfrom]
    · rw [hfrom]
    · rw [hfrom]
    · rw [hfrom]
    · rw [hfrom]; simp only [val_Py_INCREF, hv1]
    · rw [hfrom]; simp only [refcnt_Py_INCREF, hlt, and_self, if_true]
    · rw [hfrom]; simp only [refcnt_Py_INCREF, hlt, and_self, if_true, hr1]; rfl
    · rw [hfrom]
      simp only [refcnt_Py_DECREF, refcnt_Py_INCREF, Py_INCREF_length, hlt, and_self, if_true,
        hr1]
      rfl
    · intro j hj
      rw [hfrom]
      have hne : ¬ h.length = j := by omega
      simp only [refcnt_Py_DECREF, refcnt_Py_INCREF, hne, false_and, if_false]
      simp [PyHeap.refcnt, List.getElem?_append_left hj]
  · have hfail := allocateFresh_fail np h m.dims m.sizes m.type m.step hl
    simp only [pyopencv_from, hdata, Bool.false_eq_true, if_false, hcopy, if_true, hfail]
  · have hfrom : pyopencv_from np h m =
        { ret := PyRef.obj o, atReturn := Py_INCREF h o, heap := Py_INCREF h o,
          err := Option.none, copied := Option.none } := by
      simp [pyopencv_from, hdata, hu, halloc, hud]
    rw [hfrom]
    refine ⟨rfl, rfl, rfl, rfl, rfl, Py_INCREF_length h o, fun hlt => ?_⟩
    simp only [refcnt_Py_INCREF, hlt, and_self, if_true]

/-- C11 at an empty matrix, at a 4 x 1 matrix of the default allocator, at a header of 32
dimensions and three channels, whose array of 33 dimensions numpy refuses, and at the
matrix the inbound conversion made over a byte array. -/
theorem C11_outbound_conversion_witness :
    Mat.empty.data.isNull = true ∧
    pyopencv_from numpyLP64 exHeap Mat.empty =
      { ret := PyRef.none, atReturn := exHeap, heap := exHeap, err := Option.none,
        copied := Option.none } ∧
    exColumn.data.isNull = false ∧ exColumn.allocator ≠ some Allocator.numpy ∧
    numpyLP64.simpleNew exHeap (NumpyAllocator.newShape exColumn.dims exColumn.sizes
      exColumn.type) (depthToTypenum (CV_MAT_DEPTH exColumn.type)) =
      some { data := 8192, strides := [8, 8], c_contiguous := true } ∧
    (pyopencv_from numpyLP64 exHeap exColumn).ret = PyRef.obj exHeap.length ∧
    (pyopencv_from numpyLP64 exHeap exColumn).atReturn.refcnt exHeap.length = 2 ∧
    (pyopencv_from numpyLP64 exHeap exColumn).copied =
      some (exColumn.data, MatData.ptr 8192) ∧
    exDeep.data.isNull = false ∧ exDeep.u = Option.none ∧
    numpyLP64.simpleNew exHeap (NumpyAllocator.newShape exDeep.dims exDeep.sizes
      exDeep.type) (depthToTypenum (CV_MAT_DEPTH exDeep.type)) = Option.none ∧
    pyopencv_from numpyLP64 exHeap exDeep =
      { ret := PyRef.null, atReturn := exHeap, heap := exHeap,
        err := some (CvException.StsError
          "The numpy array of typenum=%d, ndims=%d can not be created"
          [FmtArg.int NPY_UBYTE, FmtArg.int 33]),
        copied := Option.none } ∧
    exWrapped.m.data.isNull = false ∧ exWrapped.m.allocator = some Allocator.numpy ∧
    exWrapped.m.u.map (fun u => u.userdata) = some (some 0) ∧
    (pyopencv_from numpyLP64 exWrapped.heap exWrapped.m).ret = PyRef.obj 0 ∧
    (pyopencv_from numpyLP64 exWrapped.heap exWrapped.m).atReturn.refcnt 0 =
      exWrapped.heap.refcnt 0 + 1 := by
  have h1 := (C11_outbound_conversion numpyLP64 exHeap Mat.empty).1 (by decide)
  have hcol : exColumn.allocator ≠ some Allocator.numpy := by decide
  have hl : numpyLP64.simpleNew exHeap (NumpyAllocator.newShape exColumn.dims exColumn.sizes
      exColumn.type) (depthToTypenum (CV_MAT_DEPTH exColumn.type)) =
      some { data := 8192, strides := [8, 8], c_contiguous := true } := by decide
  obtain ⟨arr, harr, -, -, -, h2, -, hcp, -, -, -, h3, -, -⟩ :=
    ((C11_outbound_conversion numpyLP64 exHeap exColumn).2.1 (by decide) (Or.inr hcol)).1 _ hl
  have hdeepl : numpyLP64.simpleNew exHeap (NumpyAllocator.newShape exDeep.dims exDeep.sizes
      exDeep.type) (depthToTypenum (CV_MAT_DEPTH exDeep.type)) = Option.none := by decide
  have hdeep := ((C11_outbound_conversion numpyLP64 exHeap exDeep).2.1 (by decide)
    (Or.inl (by decide))).2 hdeepl
  have hcp2 : (pyopencv_from numpyLP64 exHeap exColumn).copied =
      some (exColumn.data, MatData.ptr 8192) := by
    rw [hcp, harr]
    rfl
  cases hu : exWrapped.m.u with
  | none => exact absurd hu (by decide)
  | some u =>
    have hud : u.userdata = some 0 := by
      have : exWrapped.m.u.map (fun u => u.userdata) = some (some 0) := by decide
      simpa [hu] using this
    have h4 := (C11_outbound_conversion numpyLP64 exWrapped.heap exWrapped.m).2.2
      (by decide) u 0 hu (by decide) hud
    exact ⟨by decide, h1, by decide, hcol, hl, h2, h3, hcp2, by decide, by decide, hdeepl,
      hdeep.trans (by decide), by decide, by decide, by simp [hud],
      h4.1, h4.2.2.2.2.2.2 (by decide)⟩

/-! ## C12: allocating a new array -/

theorem map_range_getD_eq_take (l : List Int) (n : Nat) (hn : n ≤ l.length) :
    (List.range n).map (fun i => l.getD i 0) = l.take n := by
  apply List.ext_getElem?
  intro i
  by_cases hi : i < n
  · have hil : i < l.length := by omega
    rw [List.getElem?_map, List.getElem?_range hi, List.getElem?_take_of_lt hi,
      List.getElem?_eq_getElem hil]
    simp [List.getElem?_eq_getElem hil]
  · have h1 : ((List.range n).map (fun i => l.getD i 0))[i]? = Option.none :=
      List.getElem?_eq_none (by simp; omega)
    have h2 : (l.take n)[i]? = Option.none :=
      List.getElem?_eq_none (by simp; omega)
    rw [h1, h2]

/-- C12. AllocateFresh, `NumpyAllocator::allocate(dims, sizes, type, data, step, ...)`: with
`data == NULL` (and `sizes` holding `dims` entries), if `PyArray_SimpleNew` makes the array
asked for, it makes one new array object, with one reference, whose type number is the one
chosen for the depth of `type` (8U -> UBYTE, 8S -> BYTE, 16U -> USHORT, 16S -> SHORT,
32S -> INT, 32F -> FLOAT, 64F -> DOUBLE) and whose shape is `sizes[0..dims-1]` followed by
the channel count `cn` of `type` if and only if `cn > 1`, and returns the token
`WrapExisting` makes for it, whose `userdata` is the new object; if `PyArray_SimpleNew`
returns `NULL`, it raises the `StsError` error with the type number and the number of
dimensions asked for; with `data != NULL` it raises the `StsAssert` error and makes
nothing. -/
theorem C12_allocate_fresh (np : Numpy) (h : PyHeap) (dims0 : Int) (sizes : List Int)
    (type : Int) (step : List Nat) :
    (dims0.toNat ≤ sizes.length →
      ∀ l : NpyLayout,
        np.simpleNew h (NumpyAllocator.newShape dims0 sizes type)
          (depthToTypenum (CV_MAT_DEPTH type)) = some l →
        ∃ arr : NpyArray,
          arr = l.toArray (depthToTypenum (CV_MAT_DEPTH type))
            (NumpyAllocator.newShape dims0 sizes type) ∧
          NumpyAllocator.allocateFresh np h dims0 sizes type 0 step =
            Except.ok (h ++ [{ ob_refcnt := 1, val := PyVal.ndarray arr }],
              (NumpyAllocator.allocate h.length arr dims0 sizes type step).1,
              (NumpyAllocator.allocate h.length arr dims0 sizes type step).2) ∧
          arr.typenum = depthToTypenum (CV_MAT_DEPTH type) ∧
          (CV_MAT_CN type > 1 → arr.dims = sizes.take dims0.toNat ++ [CV_MAT_CN type]) ∧
          (¬ CV_MAT_CN type > 1 → arr.dims = sizes.take dims0.toNat) ∧
          (NumpyAllocator.allocate h.length arr dims0 sizes type step).1.userdata =
            some h.length ∧
          h.val h.length = PyVal.other ∧
          PyHeap.val (h ++ [{ ob_refcnt := 1, val := PyVal.ndarray arr }]) h.length =
            PyVal.ndarray arr ∧
          PyHeap.refcnt (h ++ [{ ob_refcnt := 1, val := PyVal.ndarray arr }]) h.length = 1) ∧
    (np.simpleNew h (NumpyAllocator.newShape dims0 sizes type)
        (depthToTypenum (CV_MAT_DEPTH type)) = Option.none →
      NumpyAllocator.allocateFresh np h dims0 sizes type 0 step =
        Except.error (CvException.StsError
          "The numpy array of typenum=%d, ndims=%d can not be created"
          [FmtArg.int (depthToTypenum (CV_MAT_DEPTH type)),
           FmtArg.int (if CV_MAT_CN type > 1 then dims0 + 1 else dims0)])) ∧
    (depthToTypenum CV_8U = NPY_UBYTE ∧ depthToTypenum CV_8S = NPY_BYTE ∧
      depthToTypenum CV_16U = NPY_USHORT ∧ depthToTypenum CV_16S = NPY_SHORT ∧
      depthToTypenum CV_32S = NPY_INT ∧ depthToTypenum CV_32F = NPY_FLOAT ∧
      depthToTypenum CV_64F = NPY_DOUBLE) ∧
    (∀ data : Nat, data ≠ 0 →
      NumpyAllocator.allocateFresh np h dims0 sizes type data step =
        Except.error (CvException.StsAssert "The data should normally be NULL!")) := by
  refine ⟨fun hlen l hl => ?_, fun hl => ?_, by decide, fun data hdata => ?_⟩
  · have hnew : h.val h.length = PyVal.other := by
      have : h[h.length]? = Option.none := List.getElem?_eq_none (Nat.le_refl _)
      simp [PyHeap.val, this]
    have htake := map_range_getD_eq_take sizes dims0.toNat hlen
    refine ⟨_, rfl, allocateFresh_ok np h dims0 sizes type step l _ hl rfl, rfl, fun hcn => ?_,
      fun hcn => ?_, ?_, hnew, ?_, ?_⟩
    · simp only [NpyLayout.toArray, NumpyAllocator.newShape, htake, hcn, if_true]
    · simp only [NpyLayout.toArray, NumpyAllocator.newShape, htake, hcn, if_false]
    · simp [NumpyAllocator.allocate]
    · simp [PyHeap.val]
    · simp [PyHeap.refcnt]
  · exact allocateFresh_fail np h dims0 sizes type step hl
  · simp [NumpyAllocator.allocateFresh, hdata]

/-- C12 at a 2 x 2 matrix of three byte channels, at a matrix of 32 dimensions and three
byte channels, whose array of 33 dimensions numpy refuses, and at a non-null data
argument. -/
theorem C12_allocate_fresh_witness :
    (2 : Int).toNat ≤ [2, 2].length ∧
    numpyLP64.simpleNew [] (NumpyAllocator.newShape 2 [2, 2] 16)
      (depthToTypenum (CV_MAT_DEPTH 16)) =
      some { data := 4096, strides := [6, 3, 1], c_contiguous := true } ∧
    (∃ arr : NpyArray,
      NumpyAllocator.allocateFresh numpyLP64 [] 2 [2, 2] 16 0 [0, 0] =
        Except.ok ([{ ob_refcnt := 1, val := PyVal.ndarray arr }],
          (NumpyAllocator.allocate 0 arr 2 [2, 2] 16 [0, 0]).1,
          (NumpyAllocator.allocate 0 arr 2 [2, 2] 16 [0, 0]).2) ∧
      arr.typenum = NPY_UBYTE ∧ arr.dims = [2, 2, 3]) ∧
    numpyLP64.simpleNew [] (NumpyAllocator.newShape 32 (List.replicate 32 1) 16)
      (depthToTypenum (CV_MAT_DEPTH 16)) = Option.none ∧
    NumpyAllocator.allocateFresh numpyLP64 [] 32 (List.replicate 32 1) 16 0
        (List.replicate 32 0) =
      Except.error (CvException.StsError
        "The numpy array of typenum=%d, ndims=%d can not be created"
        [FmtArg.int NPY_UBYTE, FmtArg.int 33]) ∧
    (4096 : Nat) ≠ 0 ∧
    NumpyAllocator.allocateFresh numpyLP64 [] 2 [2, 2] 16 4096 [0, 0] =
      Except.error (CvException.StsAssert "The data should normally be NULL!") :=
  have hthm := C12_allocate_fresh numpyLP64 [] 2 [2, 2] 16 [0, 0]
  have hl : numpyLP64.simpleNew [] (NumpyAllocator.newShape 2 [2, 2] 16)
      (depthToTypenum (CV_MAT_DEPTH 16)) =
      some { data := 4096, strides := [6, 3, 1], c_contiguous := true } := by decide
  have hn : numpyLP64.simpleNew [] (NumpyAllocator.newShape 32 (List.replicate 32 1) 16)
      (depthToTypenum (CV_MAT_DEPTH 16)) = Option.none := by decide
  ⟨by decide, hl,
    (hthm.1 (by decide) _ hl).elim fun arr ha =>
      ⟨arr, ha.2.1, ha.2.2.1.trans (by decide), (ha.2.2.2.1 (by decide)).trans (by decide)⟩,
    hn,
    ((C12_allocate_fresh numpyLP64 [] 32 (List.replicate 32 1) 16 (List.replicate 32 0)).2.1
      hn).trans (congrArg Except.error (by decide)),
    by decide, hthm.2.2.2 4096 (by decide)⟩

/-! ## C13: wrapping an existing array -/

theorem copySteps_length (strides : List Int) (n : Nat) (step : List Nat) :
    (NumpyAllocator.copySteps strides n step).length = step.length := by
  induction n with
  | zero => rfl
  | succ n ih => rw [NumpyAllocator.copySteps, List.length_set, ih]

theorem copySteps_getElem? (strides : List Int) (n : Nat) (step : List Nat)
    (hn : n ≤ step.length) (i : Nat) :
    (NumpyAllocator.copySteps strides n step)[i]? =
      if i < n then some (toSizeT (strides.getD i 0)) else step[i]? := by
  induction n with
  | zero => simp [NumpyAllocator.copySteps]
  | succ n ih =>
    rw [NumpyAllocator.copySteps, List.getElem?_set, copySteps_length, ih (by omega)]
    by_cases h1 : n = i
    · subst h1
      have h2 : n < step.length := by omega
      simp [h2]
    · by_cases h2 : i < n
      · have h3 : i < n + 1 := by omega
        simp [h1, h2, h3]
      · have h3 : ¬ i < n + 1 := by omega
        simp [h1, h2, h3]

theorem toSizeT_of_nonneg (s : Int) (h0 : 0 ≤ s) (hs : isIntp s) : (toSizeT s : Int) = s := by
  unfold toSizeT
  unfold isIntp at hs
  omega

/-- C13. WrapExisting, `NumpyAllocator::allocate(o, dims, sizes, type, step)` with
`dims >= 1` and a `step` array of at least `dims` entries: on return `step[i]` is the
`i`-th stride of the foreign array as a `size_t` for every `i < dims-1` (the stride
itself when it is not negative), `step[dims-1]` is `CV_ELEM_SIZE(type)`, the channel count
times the size of one channel, and the other entries are as before; the token's `data` and
`origdata` are the foreign buffer's address, its `size` is the `size_t` product
`sizes[0]*step[0]` (the exact product when `sizes[0]` is not negative and the product
fits), and its `userdata` is `o`. -/
theorem C13_wrap_existing (o : Nat) (oarr : NpyArray) (dims : Int) (sizes : List Int)
    (type : Int) (step : List Nat)
    (hd : 1 ≤ dims) (hlen : dims.toNat ≤ step.length) :
    (∀ i : Nat, (i : Int) < dims - 1 →
      (NumpyAllocator.allocate o oarr dims sizes type step).2[i]? =
        some (toSizeT (oarr.strides.getD i 0))) ∧
    (∀ i : Nat, (i : Int) < dims - 1 → 0 ≤ oarr.strides.getD i 0 →
      isIntp (oarr.strides.getD i 0) →
      ((NumpyAllocator.allocate o oarr dims sizes type step).2.getD i 0 : Int) =
        oarr.strides.getD i 0) ∧
    (NumpyAllocator.allocate o oarr dims sizes type step).2[(dims - 1).toNat]? =
      some (CV_ELEM_SIZE type) ∧
    CV_ELEM_SIZE type = (CV_MAT_CN type).toNat * CV_ELEM_SIZE1 type ∧
    (∀ i : Nat, dims ≤ (i : Int) →
      (NumpyAllocator.allocate o oarr dims sizes type step).2[i]? = step[i]?) ∧
    (NumpyAllocator.allocate o oarr dims sizes type step).1.data = MatData.ptr oarr.data ∧
    (NumpyAllocator.allocate o oarr dims sizes type step).1.origdata = MatData.ptr oarr.data ∧
    (NumpyAllocator.allocate o oarr dims sizes type step).1.size =
      toSizeT (sizes.getD 0 0) *
        (NumpyAllocator.allocate o oarr dims sizes type step).2.getD 0 0 %
          18446744073709551616 ∧
    (0 ≤ sizes.getD 0 0 →
      sizes.getD 0 0 * ((NumpyAllocator.allocate o oarr dims sizes type step).2.getD 0 0 : Int)
        < 18446744073709551616 →
      ((NumpyAllocator.allocate o oarr dims sizes type step).1.size : Int) =
        sizes.getD 0 0 *
          ((NumpyAllocator.allocate o oarr dims sizes type step).2.getD 0 0 : Int)) ∧
    (NumpyAllocator.allocate o oarr dims sizes type step).1.userdata = some o := by
  have hstep : (NumpyAllocator.allocate o oarr dims sizes type step).2 =
      (NumpyAllocator.copySteps oarr.strides (dims - 1).toNat step).set (dims - 1).toNat
        (CV_ELEM_SIZE type) := by
    simp [NumpyAllocator.allocate, hd]
  have hsize : (NumpyAllocator.allocate o oarr dims sizes type step).1.size =
      toSizeT (sizes.getD 0 0) *
        (NumpyAllocator.allocate o oarr dims sizes type step).2.getD 0 0 %
          18446744073709551616 := by
    simp [NumpyAllocator.allocate, hd]
  have hk : (dims - 1).toNat ≤ step.length := by omega
  have hk2 : (dims - 1).toNat < step.length := by omega
  have hget : ∀ i : Nat, (NumpyAllocator.allocate o oarr dims sizes type step).2[i]? =
      if (dims - 1).toNat = i then some (CV_ELEM_SIZE type)
      else if i < (dims - 1).toNat then some (toSizeT (oarr.strides.getD i 0))
      else step[i]? := by
    intro i
    rw [hstep, List.getElem?_set, copySteps_length, copySteps_getElem? _ _ _ hk]
    by_cases h1 : (dims - 1).toNat = i
    · rw [if_pos h1, if_pos h1, if_pos hk2]
    · rw [if_neg h1, if_neg h1]
  have hfirst : ∀ i : Nat, (i : Int) < dims - 1 →
      (NumpyAllocator.allocate o oarr dims sizes type step).2[i]? =
        some (toSizeT (oarr.strides.getD i 0)) := by
    intro i hi
    rw [hget i]
    have h1 : ¬ (dims - 1).toNat = i := by omega
    have h2 : i < (dims - 1).toNat := by omega
    rw [if_neg h1, if_pos h2]
  refine ⟨hfirst, ?_, ?_, rfl, ?_, ?_, ?_, hsize, ?_, ?_⟩
  · intro i hi h0 hs
    rw [List.getD_eq_getElem?_getD, hfirst i hi]
    exact toSizeT_of_nonneg _ h0 hs
  · rw [hget, if_pos rfl]
  · intro i hi
    rw [hget i]
    have h1 : ¬ (dims - 1).toNat = i := by omega
    have h2 : ¬ i < (dims - 1).toNat := by omega
    rw [if_neg h1, if_neg h2]
  · simp [NumpyAllocator.allocate]
  · simp [NumpyAllocator.allocate]
  · intro h0 hfit
    rw [hsize]
    have hto : (toSizeT (sizes.getD 0 0) : Int) = sizes.getD 0 0 % 18446744073709551616 := by
      unfold toSizeT
      omega
    have hsmall : sizes.getD 0 0 < 18446744073709551616 ∨
        (NumpyAllocator.allocate o oarr dims sizes type step).2.getD 0 0 = 0 := by
      by_contra hcon
      simp only [not_or, not_lt] at hcon
      have hpos : (1 : Int) ≤
          ((NumpyAllocator.allocate o oarr dims sizes type step).2.getD 0 0 : Int) := by
        omega
      nlinarith [hcon.1, hpos, hfit]
    rcases hsmall with hlt | hz
    · have hts : (toSizeT (sizes.getD 0 0) : Int) = sizes.getD 0 0 := by
        rw [hto]; omega
      push_cast
      rw [hts]
      exact Int.emod_eq_of_lt (Int.mul_nonneg h0 (Int.ofNat_zero_le _)) hfit
    · rw [hz]
      simp
  · simp [NumpyAllocator.allocate]

/-- C13 at a 2 x 3 byte array wrapped as a two-dimensional single-channel matrix. -/
theorem C13_wrap_existing_witness :
    (1 : Int) ≤ 2 ∧ (2 : Int).toNat ≤ [0, 0].length ∧
    (NumpyAllocator.allocate 0 exBytes 2 [2, 3] CV_8U [0, 0]).2[0]? =
      some (toSizeT (exBytes.strides.getD 0 0)) ∧
    (NumpyAllocator.allocate 0 exBytes 2 [2, 3] CV_8U [0, 0]).2[((2 : Int) - 1).toNat]? =
      some (CV_ELEM_SIZE CV_8U) ∧
    (NumpyAllocator.allocate 0 exBytes 2 [2, 3] CV_8U [0, 0]).1.userdata = some 0 :=
  have hthm := C13_wrap_existing 0 exBytes 2 [2, 3] CV_8U [0, 0] (by decide) (by decide)
  ⟨by decide, by decide, hthm.1 0 (by decide), hthm.2.2.1, hthm.2.2.2.2.2.2.2.2.2⟩

/-! ## C14: a null data pointer -/

/-- C14, as amended. WrapExisting does not test the data pointer: for every foreign array
whose data pointer is null, `NumpyAllocator::allocate(o, dims, sizes, type, step)` returns
a token bound to it (`userdata` is `o`) whose `data` and `origdata` are null; and
`pyopencv_to` on such an array, when its dtype and rank are accepted and no copy is needed,
returns `true` with a matrix bound to the array, one reference added, whose data pointer is
null, so that `pyopencv_from` on that matrix returns `None`. -/
theorem C14_null_data_wrapped (np : Numpy) (h : PyHeap) (o : Nat) (a : NpyArray) (m : Mat)
    (info : ArgInfo) (hnull : a.data = 0) :
    (∀ (dims : Int) (sizes : List Int) (type : Int) (step : List Nat),
      (NumpyAllocator.allocate o a dims sizes type step).1.userdata = some o ∧
      (NumpyAllocator.allocate o a dims sizes type step).1.data.isNull = true ∧
      (NumpyAllocator.allocate o a dims sizes type step).1.origdata.isNull = true) ∧
    (∀ dt, h.val o = PyVal.ndarray a → classifyDtype np.dataModel a.typenum = some dt →
      a.dims.length < CV_MAX_DIM →
      needcopy a (CV_ELEM_SIZE1 dt.type) dt.needcast = false →
      (pyopencv_to np h (.obj o) m info).ret = true ∧
      (pyopencv_to np h (.obj o) m info).m.u.map (fun u => u.userdata) = some (some o) ∧
      (pyopencv_to np h (.obj o) m info).m.data.isNull = true ∧
      (pyopencv_to np h (.obj o) m info).heap = Py_INCREF h o ∧
      (pyopencv_from np (pyopencv_to np h (.obj o) m info).heap
        (pyopencv_to np h (.obj o) m info).m).ret = PyRef.none) := by
  constructor
  · intro dims sizes type step
    simp [NumpyAllocator.allocate, hnull, MatData.isNull]
  · intro dt ho hdt hrank hnc
    have hout : ¬ (needcopy a (CV_ELEM_SIZE1 dt.type) dt.needcast = true ∧
        info.outputarg = true) := by simp [hnc]
    obtain ⟨hret, -, -, hd, hu, hheap⟩ := arrayTo_ok np h o a m info dt hdt hrank hout
    rw [pyopencv_to_ndarray np h o a m info ho]
    simp only [hnc, resolve, Bool.false_eq_true, if_false] at hd hu hheap
    have hisnull : (arrayTo np h o a m info).m.data.isNull = true := by
      rw [hd, hnull]; rfl
    refine ⟨hret, hu, hisnull, hheap, ?_⟩
    simp [pyopencv_from, hisnull]

/-- C14 (amended) at a 2 x 3 byte array object with a null data pointer. -/
theorem C14_null_data_wrapped_witness :
    exNull.data = 0 ∧ exNullHeap.val 0 = PyVal.ndarray exNull ∧
    classifyDtype numpyLP64.dataModel exNull.typenum = some ⟨CV_8U, false, NPY_UBYTE⟩ ∧
    exNull.dims.length < CV_MAX_DIM ∧
    needcopy exNull (CV_ELEM_SIZE1 CV_8U) false = false ∧
    (NumpyAllocator.allocate 0 exNull 2 [2, 3] CV_8U [0, 0]).1.userdata = some 0 ∧
    (pyopencv_to numpyLP64 exNullHeap (.obj 0) Mat.empty exInput).ret = true ∧
    (pyopencv_to numpyLP64 exNullHeap (.obj 0) Mat.empty exInput).m.data.isNull = true :=
  have hthm := C14_null_data_wrapped numpyLP64 exNullHeap 0 exNull Mat.empty exInput rfl
  have hto := hthm.2 ⟨CV_8U, false, NPY_UBYTE⟩ (by decide) (by decide) (by decide) (by decide)
  ⟨rfl, by decide, by decide, by decide, by decide, (hthm.1 2 [2, 3] CV_8U [0, 0]).1,
    hto.1, hto.2.2.1⟩

/-- C14 as stated fails: for a 2 x 3 byte array object whose data pointer is null,
`NumpyAllocator::allocate` returns a token bound to the object, and `pyopencv_to` returns
`true` with a 2 x 3 matrix that holds that token and the bridge allocator. -/
theorem C14_counterexample :
    exNull.data = 0 ∧ exNullHeap.val 0 = PyVal.ndarray exNull ∧
    (NumpyAllocator.allocate 0 exNull 2 [2, 3] CV_8U [0, 0]).1.userdata = some 0 ∧
    (pyopencv_to numpyLP64 exNullHeap (.obj 0) Mat.empty exInput).ret = true ∧
    (pyopencv_to numpyLP64 exNullHeap (.obj 0) Mat.empty exInput).m.sizes = [2, 3] ∧
    (pyopencv_to numpyLP64 exNullHeap (.obj 0) Mat.empty exInput).m.u.map
      (fun u => u.userdata) = some (some 0) ∧
    (pyopencv_to numpyLP64 exNullHeap (.obj 0) Mat.empty exInput).m.allocator =
      some Allocator.numpy := by
  decide

/-! ## C15: the copy decision, exactly -/

theorem needcopyLoopAll_iff (strides : List Int) (ndims elemsize : Nat) (n : Nat) (nc : Bool) :
    needcopyLoopAll strides ndims elemsize n nc = true ↔
      nc = true ∨ ∃ i, i < n ∧ strideViolation strides ndims elemsize i := by
  induction n generalizing nc with
  | zero => simp [needcopyLoopAll]
  | succ n ih =>
    rw [needcopyLoopAll, ih]
    simp only [Bool.or_eq_true, decide_eq_true_eq]
    constructor
    · rintro ((hnc | hv) | ⟨i, hi, hv⟩)
      · exact Or.inl hnc
      · exact Or.inr ⟨n, Nat.lt_succ_self n, hv⟩
      · exact Or.inr ⟨i, Nat.lt_succ_of_lt hi, hv⟩
    · rintro (hnc | ⟨i, hi, hv⟩)
      · exact Or.inl (Or.inl hnc)
      · rcases Nat.lt_succ_iff_lt_or_eq.mp hi with hlt | heq
        · exact Or.inr ⟨i, hlt, hv⟩
        · subst heq
          exact Or.inl (Or.inr hv)

theorem needcopyLoop_eq_all (strides : List Int) (ndims elemsize : Nat) (n : Nat) (nc : Bool) :
    needcopyLoop strides ndims elemsize n nc = needcopyLoopAll strides ndims elemsize n nc := by
  rw [Bool.eq_iff_iff, needcopyLoop_iff, needcopyLoopAll_iff]

theorem needcopy_eq_all (a : NpyArray) (elemsize : Nat) (needcast : Bool) :
    needcopy a elemsize needcast = needcopyAll a elemsize needcast := by
  unfold needcopy needcopyAll
  rw [needcopyLoop_eq_all]

/-- C15. Exact characterisation of the copy decision: for every array that needs no dtype
promotion, with shape `sizes`, byte strides that are `npy_intp` values and single-channel
element size `e`, the flag `needcopy` computed by `pyopencv_to` is true if and only if
(rank >= 1 and `strides[rank-1] != e`) or (`strides[i] < strides[i+1]` for some
`i < rank-1`) or (rank = 3 and `sizes[2] <= CV_CN_MAX` and `strides[1] != e * sizes[2]`);
and the loop run without its early exit leaves the same flag. -/
theorem C15_copy_decision_exact (a : NpyArray) (type : Int)
    (hs : ∀ i, isIntp (a.strides.getD i 0)) :
    (needcopy a (CV_ELEM_SIZE1 type) false = true ↔
      (1 ≤ a.dims.length ∧
        a.strides.getD (a.dims.length - 1) 0 ≠ (CV_ELEM_SIZE1 type : Int)) ∨
      (∃ i, i + 1 < a.dims.length ∧ a.strides.getD i 0 < a.strides.getD (i + 1) 0) ∨
      (a.dims.length = 3 ∧ a.dims.getD 2 0 ≤ CV_CN_MAX ∧
        a.strides.getD 1 0 ≠ (CV_ELEM_SIZE1 type : Int) * a.dims.getD 2 0)) ∧
    needcopy a (CV_ELEM_SIZE1 type) false = needcopyAll a (CV_ELEM_SIZE1 type) false := by
  have he := (CV_ELEM_SIZE1_le type).1
  refine ⟨?_, needcopy_eq_all _ _ _⟩
  rw [needcopy_iff]
  simp only [Bool.false_eq_true, false_or]
  have hm : ismultichannel a = true ↔ (a.dims.length = 3 ∧ a.dims.getD 2 0 ≤ CV_CN_MAX) := by
    simp [ismultichannel]
  constructor
  · rintro (⟨i, hi, ⟨hlast, hne⟩ | ⟨hlt, hless⟩⟩ | ⟨hmc, hne⟩)
    · left
      have hidx : a.dims.length - 1 = i := by omega
      refine ⟨by omega, ?_⟩
      rw [hidx]
      intro heq
      exact hne ((toSizeT_eq_iff _ _ (hs i) he).mpr heq)
    · right; left
      exact ⟨i, hlt, hless⟩
    · right; right
      exact ⟨(hm.mp hmc).1, (hm.mp hmc).2, hne⟩
  · rintro (⟨hr, hne⟩ | ⟨i, hi, hless⟩ | ⟨h3, hcn, hne⟩)
    · left
      refine ⟨a.dims.length - 1, by omega, Or.inl ⟨by omega, ?_⟩⟩
      rw [Ne, toSizeT_eq_iff _ _ (hs _) he]
      exact hne
    · left
      exact ⟨i, by omega, Or.inr ⟨hi, hless⟩⟩
    · right
      exact ⟨hm.mpr ⟨h3, hcn⟩, hne⟩

/-- C15 at a 2 x 2 x 3 byte array with middle stride 6: only the channel test fires. -/
theorem C15_copy_decision_exact_witness :
    (∀ i, isIntp (exSkipped.strides.getD i 0)) ∧
    (exSkipped.dims.length = 3 ∧ exSkipped.dims.getD 2 0 ≤ CV_CN_MAX ∧
      exSkipped.strides.getD 1 0 ≠ (CV_ELEM_SIZE1 CV_8U : Int) * exSkipped.dims.getD 2 0) ∧
    needcopy exSkipped (CV_ELEM_SIZE1 CV_8U) false = true :=
  have hi : ∀ i, isIntp (exSkipped.strides.getD i 0) :=
    isIntp_getD exSkipped.strides (by decide)
  have hc : exSkipped.dims.length = 3 ∧ exSkipped.dims.getD 2 0 ≤ CV_CN_MAX ∧
      exSkipped.strides.getD 1 0 ≠ (CV_ELEM_SIZE1 CV_8U : Int) * exSkipped.dims.getD 2 0 := by
    decide
  ⟨hi, hc, (C15_copy_decision_exact exSkipped CV_8U hi).1.mpr (Or.inr (Or.inr hc))⟩

/-! ## C16: promotion forces the copy path -/

theorem needcopy_of_needcast (a : NpyArray) (elemsize : Nat) :
    needcopy a elemsize true = true := by
  rw [needcopy_iff]
  exact Or.inl rfl

/-- C16. Promotion forces the copy path regardless of layout: for every array whose dtype
needs promotion and whose rank passes the dimensionality test, the copy decision is true
whatever its strides are; passed as an output argument it is rejected with the
incompatible-layout error, heap and `m` untouched; passed as a non-output argument the
conversion returns `true` with the matrix bound to the array `PyArray_Cast(oarr, NPY_INT)`
makes, a new object of type `NPY_INT` and the same shape at the end of the heap, never to
the original object, whose reference count stays as it was. -/
theorem C16_promotion_forces_copy (np : Numpy) (h : PyHeap) (o : Nat) (a : NpyArray) (m : Mat)
    (info : ArgInfo) (dt : Dtype)
    (ho : h.val o = PyVal.ndarray a)
    (hdt : classifyDtype np.dataModel a.typenum = some dt)
    (hcast : dt.needcast = true)
    (hrank : a.dims.length < CV_MAX_DIM) :
    needcopy a (CV_ELEM_SIZE1 dt.type) dt.needcast = true ∧
    (info.outputarg = true →
      pyopencv_to np h (.obj o) m info =
        { ret := false, m := m, heap := h,
          err := some (failmsg "Layout of the output array %s is incompatible with cv::Mat (step[ndims-1] != elemsize or step[1] != elemsize*nchannels)"
            [FmtArg.str info.name]) }) ∧
    (info.outputarg = false →
      (pyopencv_to np h (.obj o) m info).ret = true ∧
      (pyopencv_to np h (.obj o) m info).m.u.map (fun u => u.userdata) =
        some (some h.length) ∧
      h.length ≠ o ∧
      (pyopencv_to np h (.obj o) m info).heap =
        h ++ [{ ob_refcnt := 1,
                val := PyVal.ndarray ((np.cast h a NPY_INT).toArray NPY_INT a.dims) }] ∧
      (pyopencv_to np h (.obj o) m info).m.data = MatData.ptr (np.cast h a NPY_INT).data ∧
      (pyopencv_to np h (.obj o) m info).heap.refcnt o = h.refcnt o) := by
  have hnc : needcopy a (CV_ELEM_SIZE1 dt.type) dt.needcast = true := by
    rw [hcast]; exact needcopy_of_needcast _ _
  have hlen := lt_length_of_val ho
  have hnew := ((classifyDtype_needcast _ _ _ hdt).1 hcast).1
  rw [pyopencv_to_ndarray np h o a m info ho]
  refine ⟨hnc, fun hout => ?_, fun hout => ?_⟩
  · exact arrayTo_output_rejected np h o a m info dt hdt hrank hnc hout
  · have hout2 : ¬ (needcopy a (CV_ELEM_SIZE1 dt.type) dt.needcast = true ∧
        info.outputarg = true) := by simp [hout]
    obtain ⟨hret, -, -, hd, hu, hheap⟩ := arrayTo_ok np h o a m info dt hdt hrank hout2
    rw [hd, hu, hheap, hnc]
    have hres : resolve np h o a true dt = PyArray_Cast np h a NPY_INT := by
      simp [resolve, hcast, hnew]
    rw [hres]
    refine ⟨hret, by simp [PyArray_Cast], by omega, by simp [PyArray_Cast, PyHeap.alloc],
      by simp [PyArray_Cast, NpyLayout.toArray], ?_⟩
    simp only [if_true, PyArray_Cast]
    exact refcnt_alloc _ _ _ hlen

/-- C16 at a fully contiguous array of 64-bit integers, as output and as input. -/
theorem C16_promotion_forces_copy_witness :
    exInt64Heap.val 0 = PyVal.ndarray exInt64 ∧
    classifyDtype numpyLP64.dataModel exInt64.typenum = some ⟨CV_32S, true, NPY_INT⟩ ∧
    exInt64.dims.length < CV_MAX_DIM ∧
    (pyopencv_to numpyLP64 exInt64Heap (.obj 0) Mat.empty exOutput).ret = false ∧
    (pyopencv_to numpyLP64 exInt64Heap (.obj 0) Mat.empty exInput).m.u.map
      (fun u => u.userdata) = some (some exInt64Heap.length) :=
  have hthm := fun info => C16_promotion_forces_copy numpyLP64 exInt64Heap 0 exInt64 Mat.empty
    info ⟨CV_32S, true, NPY_INT⟩ (by decide) (by decide) rfl (by decide)
  ⟨by decide, by decide, by decide,
    by rw [(hthm exOutput).2.1 rfl], ((hthm exInput).2.2 rfl).2.1⟩

end Vocl
